import Mathlib

/-!
# Voltas AC signal encoder

A shallow embedding of the two encoders of the repository:

* `prepareVoltasSignal` of `ESP8266_server.cpp` (the network handler), which
  takes Arduino strings for power, mode and fan speed;
* `generate_ac_command` of `Signal.cpp` (the interactive console), which takes
  integer choices.

Both write into a global ten-byte buffer, so each is modelled as a function
from the buffer before the call to the buffer after it.
-/

namespace SmartAC

/-! ## The global buffer -/

/-- Length of a command, `const uint8_t VOLTAS_CMD_LENGTH = 10`. -/
def VOLTAS_CMD_LENGTH : Nat := 10

/-- The global `uint8_t Signal[VOLTAS_CMD_LENGTH]` (and `unsigned char signal[10]`):
ten cells addressed by an index below ten. -/
abbrev Buffer := Fin 10 → Nat

/-- Narrowing of a C `int` to `uint8_t` / `unsigned char`: reduction modulo 256. -/
def toU8 (x : Int) : Nat := (x % 256).toNat

/-- One assignment `Signal[i] = v;`, the value being narrowed to a byte. -/
def store (Signal : Buffer) (i : Fin 10) (v : Int) : Buffer :=
  fun j => if j = i then toU8 v else Signal j

/-- A run of assignments `Signal[i] = v;`, executed from left to right. -/
def stores (Signal : Buffer) : List (Fin 10 × Int) → Buffer
  | [] => Signal
  | (i, v) :: rest => stores (store Signal i v) rest

/-- The ten cells of the buffer in index order. -/
def bytes (Signal : Buffer) : List Nat :=
  [Signal 0, Signal 1, Signal 2, Signal 3, Signal 4,
   Signal 5, Signal 6, Signal 7, Signal 8, Signal 9]

/-! ## Arduino strings -/

/-- Modelled from the spec: the comparison loop of the Arduino library method
`String::equalsIgnoreCase`, which is not part of the repository. It walks both
character sequences and stops at the first pair that differs after `tolower`. -/
def equalsIgnoreCaseLoop : List Char → List Char → Bool
  | [], _ => true
  | _ :: _, [] => false
  | c :: cs, d :: ds =>
    if c.toLower != d.toLower then false else equalsIgnoreCaseLoop cs ds

/-- Modelled from the spec: `String::equalsIgnoreCase` belongs to the Arduino
core library, which is not part of the repository. The spec calls the
comparisons case-insensitive; the library compares the lengths and then the
characters after ASCII `tolower`. -/
def equalsIgnoreCase (s t : String) : Bool :=
  if s.data.length ≠ t.data.length then false
  else equalsIgnoreCaseLoop s.data t.data

/-! ## `ESP8266_server.cpp` -/

/-- The encoder of the network handler, `prepareVoltasSignal(power, mode, temp,
fanSpeed)`, as a transformer of the global `Signal` buffer. -/
def prepareVoltasSignal (power mode : String) (temp : Int) (fanSpeed : String)
    (Signal : Buffer) : Buffer :=
  -- 1. POWER OFF
  if hOff : equalsIgnoreCase power "OFF" = true then
    stores Signal [(0, 0x33), (1, 0x28), (2, 0x08), (3, 0x18),
                   (4, 0x3B), (5, 0x3B), (6, 0x3B), (7, 0x11),
                   (8, 0x20), (9, 0xA2)]
  -- 2. POWER ON
  else if equalsIgnoreCase power "ON" then
    let Signal := stores Signal [(0, 0x33), (4, 0x3B), (5, 0x3B), (6, 0x3B),
                                 (7, 0x11), (8, 0x20)]
    -- clamp temperature input
    let current_temp_val : Int := temp
    let current_temp_val : Int := if current_temp_val < 16 then 16 else current_temp_val
    let current_temp_val : Int := if current_temp_val > 30 then 30 else current_temp_val
    let current_temp_byte : Nat := toU8 current_temp_val
    let useExplicitFanIR : Bool :=
      equalsIgnoreCase fanSpeed "LOW" || equalsIgnoreCase fanSpeed "MEDIUM" ||
      equalsIgnoreCase fanSpeed "HIGH" || equalsIgnoreCase fanSpeed "AUTO"
    if equalsIgnoreCase mode "COOL" then
      if useExplicitFanIR then
        let Signal := stores Signal [(2, 0x80), (3, current_temp_byte)]
        if equalsIgnoreCase fanSpeed "LOW" then
          stores Signal [(1, 0x88), (9, 0xE2 - current_temp_byte)]
        else if equalsIgnoreCase fanSpeed "MEDIUM" then
          stores Signal [(1, 0x48), (9, 0x22 - current_temp_byte)]
        else if equalsIgnoreCase fanSpeed "HIGH" then
          stores Signal [(1, 0x28), (9, 0x42 - current_temp_byte)]
        else if equalsIgnoreCase fanSpeed "AUTO" then
          stores Signal [(1, 0xE8), (9, 0x82 - current_temp_byte)]
        else Signal
      else
        stores Signal [(1, 0x28), (2, 0x88), (3, current_temp_byte),
                       (9, 0x3A - current_temp_byte)]
    else if equalsIgnoreCase mode "HEAT" then
      stores Signal [(1, 0x22), (2, 0x88), (3, current_temp_byte),
                     (9, 0x40 - current_temp_byte)]
    else if equalsIgnoreCase mode "DRY" then
      stores Signal [(1, 0x84), (2, 0x88), (3, 0x18), (9, 0xC6)]
    else if equalsIgnoreCase mode "FAN" then
      stores Signal [(1, 0x41), (2, 0x88), (3, 0x10), (9, 0x11)]
    else
      -- unknown mode: warning, then COOL without explicit fan
      stores Signal [(1, 0x28), (2, 0x88), (3, current_temp_byte),
                     (9, 0x3A - current_temp_byte)]
  else
    -- invalid power: error message, then the call with "OFF"
    prepareVoltasSignal "OFF" "" 0 "" Signal
termination_by (if equalsIgnoreCase power "OFF" = true then 0 else 1)
decreasing_by
  have hLit : equalsIgnoreCase "OFF" "OFF" = true := by decide
  simp [hOff, hLit]

/-! ## `Signal.cpp` -/

/-- The encoder of the interactive console, `generate_ac_command(power_status,
mode_choice, temp_value, fan_speed_choice)`, as a transformer of the global
`signal` buffer. -/
def generate_ac_command (power_status mode_choice temp_value fan_speed_choice : Int)
    (signal : Buffer) : Buffer :=
  -- 1. POWER OFF
  if hOff : power_status = 0 then
    stores signal [(0, 0x33), (1, 0x28), (2, 0x08), (3, 0x18),
                   (4, 0x3B), (5, 0x3B), (6, 0x3B), (7, 0x11),
                   (8, 0x20), (9, 0xA2)]
  else
    -- 2. POWER ON
    let signal := stores signal [(0, 0x33), (4, 0x3B), (5, 0x3B), (6, 0x3B),
                                 (7, 0x11), (8, 0x20)]
    let current_temp : Int := temp_value
    if mode_choice = 1 then
      let current_temp : Int :=
        if current_temp < 16 then 16 else if current_temp > 30 then 30 else current_temp
      let signal := store signal 3 current_temp
      if fan_speed_choice = 1 then
        stores signal [(1, 0x88), (2, 0x80), (9, 0xE2 - current_temp)]
      else if fan_speed_choice = 2 then
        stores signal [(1, 0x48), (2, 0x80), (9, 0x22 - current_temp)]
      else if fan_speed_choice = 3 then
        stores signal [(1, 0x28), (2, 0x80), (9, 0x42 - current_temp)]
      else if fan_speed_choice = 4 then
        stores signal [(1, 0xE8), (2, 0x80), (9, 0x82 - current_temp)]
      else
        stores signal [(1, 0x28), (2, 0x88), (9, 0x3A - current_temp)]
    else if mode_choice = 2 then
      stores signal [(1, 0x84), (2, 0x88), (3, 0x18), (9, 0xC6)]
    else if mode_choice = 3 then
      let current_temp : Int :=
        if current_temp < 16 then 16 else if current_temp > 30 then 30 else current_temp
      stores signal [(1, 0x22), (2, 0x88), (3, current_temp), (9, 0x40 - current_temp)]
    else if mode_choice = 4 then
      stores signal [(1, 0x41), (2, 0x88), (3, 0x10), (9, 0x11)]
    else
      -- invalid mode: error message, then the call with power off
      generate_ac_command 0 0 0 0 signal
termination_by (if power_status = 0 then 0 else 1)
decreasing_by
  simp [hOff]

/-! ## Call depth -/

/-- The function `prepareVoltasSignal` run with a budget of nested activations:
each activation consumes one unit, `none` means that the budget was exhausted
before the outermost call returned. The body is the one of
`prepareVoltasSignal`. -/
def prepareVoltasSignalDepth :
    Nat → String → String → Int → String → Buffer → Option Buffer
  | 0, _, _, _, _, _ => none
  | depth + 1, power, mode, temp, fanSpeed, Signal =>
    if equalsIgnoreCase power "OFF" = true then
      some (stores Signal [(0, 0x33), (1, 0x28), (2, 0x08), (3, 0x18),
                           (4, 0x3B), (5, 0x3B), (6, 0x3B), (7, 0x11),
                           (8, 0x20), (9, 0xA2)])
    else if equalsIgnoreCase power "ON" then
      some (
        let Signal := stores Signal [(0, 0x33), (4, 0x3B), (5, 0x3B), (6, 0x3B),
                                     (7, 0x11), (8, 0x20)]
        let current_temp_val : Int := temp
        let current_temp_val : Int := if current_temp_val < 16 then 16 else current_temp_val
        let current_temp_val : Int := if current_temp_val > 30 then 30 else current_temp_val
        let current_temp_byte : Nat := toU8 current_temp_val
        let useExplicitFanIR : Bool :=
          equalsIgnoreCase fanSpeed "LOW" || equalsIgnoreCase fanSpeed "MEDIUM" ||
          equalsIgnoreCase fanSpeed "HIGH" || equalsIgnoreCase fanSpeed "AUTO"
        if equalsIgnoreCase mode "COOL" then
          if useExplicitFanIR then
            let Signal := stores Signal [(2, 0x80), (3, current_temp_byte)]
            if equalsIgnoreCase fanSpeed "LOW" then
              stores Signal [(1, 0x88), (9, 0xE2 - current_temp_byte)]
            else if equalsIgnoreCase fanSpeed "MEDIUM" then
              stores Signal [(1, 0x48), (9, 0x22 - current_temp_byte)]
            else if equalsIgnoreCase fanSpeed "HIGH" then
              stores Signal [(1, 0x28), (9, 0x42 - current_temp_byte)]
            else if equalsIgnoreCase fanSpeed "AUTO" then
              stores Signal [(1, 0xE8), (9, 0x82 - current_temp_byte)]
            else Signal
          else
            stores Signal [(1, 0x28), (2, 0x88), (3, current_temp_byte),
                           (9, 0x3A - current_temp_byte)]
        else if equalsIgnoreCase mode "HEAT" then
          stores Signal [(1, 0x22), (2, 0x88), (3, current_temp_byte),
                         (9, 0x40 - current_temp_byte)]
        else if equalsIgnoreCase mode "DRY" then
          stores Signal [(1, 0x84), (2, 0x88), (3, 0x18), (9, 0xC6)]
        else if equalsIgnoreCase mode "FAN" then
          stores Signal [(1, 0x41), (2, 0x88), (3, 0x10), (9, 0x11)]
        else
          stores Signal [(1, 0x28), (2, 0x88), (3, current_temp_byte),
                         (9, 0x3A - current_temp_byte)])
    else
      prepareVoltasSignalDepth depth "OFF" "" 0 "" Signal

/-- The function `generate_ac_command` run with a budget of nested activations,
in the same way as `prepareVoltasSignalDepth`. -/
def generate_ac_commandDepth : Nat → Int → Int → Int → Int → Buffer → Option Buffer
  | 0, _, _, _, _, _ => none
  | depth + 1, power_status, mode_choice, temp_value, fan_speed_choice, signal =>
    if power_status = 0 then
      some (stores signal [(0, 0x33), (1, 0x28), (2, 0x08), (3, 0x18),
                           (4, 0x3B), (5, 0x3B), (6, 0x3B), (7, 0x11),
                           (8, 0x20), (9, 0xA2)])
    else
      let signal := stores signal [(0, 0x33), (4, 0x3B), (5, 0x3B), (6, 0x3B),
                                   (7, 0x11), (8, 0x20)]
      let current_temp : Int := temp_value
      if mode_choice = 1 then
        some (
          let current_temp : Int :=
            if current_temp < 16 then 16 else if current_temp > 30 then 30 else current_temp
          let signal := store signal 3 current_temp
          if fan_speed_choice = 1 then
            stores signal [(1, 0x88), (2, 0x80), (9, 0xE2 - current_temp)]
          else if fan_speed_choice = 2 then
            stores signal [(1, 0x48), (2, 0x80), (9, 0x22 - current_temp)]
          else if fan_speed_choice = 3 then
            stores signal [(1, 0x28), (2, 0x80), (9, 0x42 - current_temp)]
          else if fan_speed_choice = 4 then
            stores signal [(1, 0xE8), (2, 0x80), (9, 0x82 - current_temp)]
          else
            stores signal [(1, 0x28), (2, 0x88), (9, 0x3A - current_temp)])
      else if mode_choice = 2 then
        some (stores signal [(1, 0x84), (2, 0x88), (3, 0x18), (9, 0xC6)])
      else if mode_choice = 3 then
        some (
          let current_temp : Int :=
            if current_temp < 16 then 16 else if current_temp > 30 then 30 else current_temp
          stores signal [(1, 0x22), (2, 0x88), (3, current_temp), (9, 0x40 - current_temp)])
      else if mode_choice = 4 then
        some (stores signal [(1, 0x41), (2, 0x88), (3, 0x10), (9, 0x11)])
      else
        generate_ac_commandDepth depth 0 0 0 0 signal

/-! ## Diagnostic output -/

/-- Modelled from the spec: one uppercase hexadecimal digit, as the C library
writes it for the conversion `%X`. -/
def hexDigit (n : Nat) : Char :=
  if n < 10 then Char.ofNat (48 + n) else Char.ofNat (55 + n)

/-- Modelled from the spec: the conversion `%02X` of `printf` (C library, not
part of the repository) applied to a byte: two uppercase hexadecimal digits,
padded with a zero. -/
def fmt02X (v : Nat) : List Char :=
  [hexDigit (v / 16 % 16), hexDigit (v % 16)]

/-- The characters `print_signal` of `Signal.cpp` writes to the standard output
for the global `signal` buffer. -/
def print_signal (signal : Buffer) : List Char :=
  let out := "\nGenerated Signal Code:\n".data
  let out := out ++ "signal[10] = \x7b".data
  let out := (List.range 9).foldl
    (fun out i => out ++ ("0x".data ++ fmt02X (signal (Fin.ofNat i)) ++ ", ".data)) out
  out ++ ("0x".data ++ fmt02X (signal 9) ++ "\x7d\n".data)

/-- The characters the `ac_control` branch of `webSocketEvent` writes to the
serial port for the generated signal (`println` ends the line with CR LF). -/
def webSocketEvent_print (Signal : Buffer) : List Char :=
  let out := "Generated IR Signal: \x7b".data
  let out := (List.range VOLTAS_CMD_LENGTH).foldl
    (fun out i =>
      let out := out ++ ("0x".data ++ fmt02X (Signal (Fin.ofNat i)))
      if i < VOLTAS_CMD_LENGTH - 1 then out ++ ", ".data else out) out
  out ++ "\x7d\r\n".data

/-- The rendering the spec prescribes for a signal: an opening brace, each byte
as "0x" and two hexadecimal digits, the bytes separated by a comma and a space,
a closing brace. -/
def diagnosticFormat (signalBytes : List Nat) : List Char :=
  "\x7b".data ++
    ", ".data.intercalate (signalBytes.map (fun b => "0x".data ++ fmt02X b)) ++
    "\x7d".data

/-! ## Normalized intents -/

/-- The fan speeds of the data model. -/
inductive FanSpeed where
  | LOW | MEDIUM | HIGH | AUTO | DEFAULT
  deriving DecidableEq, Repr

/-- The normalized intents: OFF, DRY, FAN, HEAT at a temperature, COOL at a
temperature with a fan speed. -/
inductive Intent where
  | OFF
  | DRY
  | FAN
  | HEAT (t : Int)
  | COOL (t : Int) (f : FanSpeed)
  deriving DecidableEq, Repr

/-- The fan string the network handler receives for a fan speed ("NONE" is the
default of the handler for a missing field). -/
def FanSpeed.keyword : FanSpeed → String
  | .LOW => "LOW"
  | .MEDIUM => "MEDIUM"
  | .HIGH => "HIGH"
  | .AUTO => "AUTO"
  | .DEFAULT => "NONE"

/-- The console choice of a fan speed. -/
def FanSpeed.choice : FanSpeed → Int
  | .LOW => 1
  | .MEDIUM => 2
  | .HIGH => 3
  | .AUTO => 4
  | .DEFAULT => 0

/-- The temperature of an intent lies in 16..30. -/
def Intent.inRange : Intent → Prop
  | .HEAT t => 16 ≤ t ∧ t ≤ 30
  | .COOL t _ => 16 ≤ t ∧ t ≤ 30
  | _ => True

instance Intent.decidableInRange (i : Intent) : Decidable i.inRange := by
  cases i <;> unfold Intent.inRange <;> infer_instance

/-- The signal `prepareVoltasSignal` produces for an intent. -/
def Intent.serverSignal (i : Intent) (buf : Buffer) : Buffer :=
  match i with
  | .OFF => prepareVoltasSignal "OFF" "" 0 "" buf
  | .DRY => prepareVoltasSignal "ON" "DRY" 24 "NONE" buf
  | .FAN => prepareVoltasSignal "ON" "FAN" 24 "NONE" buf
  | .HEAT t => prepareVoltasSignal "ON" "HEAT" t "NONE" buf
  | .COOL t f => prepareVoltasSignal "ON" "COOL" t f.keyword buf

/-- The signal `generate_ac_command` produces for an intent. -/
def Intent.consoleSignal (i : Intent) (buf : Buffer) : Buffer :=
  match i with
  | .OFF => generate_ac_command 0 0 0 0 buf
  | .DRY => generate_ac_command 1 2 24 0 buf
  | .FAN => generate_ac_command 1 4 24 0 buf
  | .HEAT t => generate_ac_command 1 3 t 0 buf
  | .COOL t f => generate_ac_command 1 1 t f.choice buf

/-! ## Auxiliary facts -/

theorem equalsIgnoreCaseLoop_iff (a b : List Char) (h : a.length = b.length) :
    equalsIgnoreCaseLoop a b = true ↔ a.map Char.toLower = b.map Char.toLower := by
  induction a generalizing b with
  | nil =>
    cases b with
    | nil => simp [equalsIgnoreCaseLoop]
    | cons d ds => simp at h
  | cons c cs ih =>
    cases b with
    | nil => simp at h
    | cons d ds =>
      have hl : cs.length = ds.length := by simpa using h
      by_cases hcd : c.toLower = d.toLower
      · simp [equalsIgnoreCaseLoop, hcd, ih ds hl]
      · simp [equalsIgnoreCaseLoop, hcd]

/-- Two strings are equal ignoring case exactly when they agree after every
character is lowered. -/
theorem equalsIgnoreCase_iff (s t : String) :
    equalsIgnoreCase s t = true ↔ s.data.map Char.toLower = t.data.map Char.toLower := by
  unfold equalsIgnoreCase
  by_cases h : s.data.length = t.data.length
  · rw [if_neg (not_not.mpr h)]
    exact equalsIgnoreCaseLoop_iff _ _ h
  · have hne : s.data.map Char.toLower ≠ t.data.map Char.toLower := by
      intro he
      apply h
      simpa using congrArg List.length he
    rw [if_pos h]
    simp [hne]

/-- A string that matches one keyword does not match a keyword that differs
from it beyond case. -/
theorem equalsIgnoreCase_exclusive (s a b : String) (hs : equalsIgnoreCase s a = true)
    (hab : equalsIgnoreCase a b = false) : equalsIgnoreCase s b = false := by
  cases hsb : equalsIgnoreCase s b with
  | false => rfl
  | true =>
    have h1 := (equalsIgnoreCase_iff s a).1 hs
    have h2 := (equalsIgnoreCase_iff s b).1 hsb
    have h3 : equalsIgnoreCase a b = true := (equalsIgnoreCase_iff a b).2 (h1 ▸ h2)
    rw [hab] at h3
    exact absurd h3 (by decide)

theorem bytes_stores_off (buf : Buffer) :
    bytes (stores buf [(0, 0x33), (1, 0x28), (2, 0x08), (3, 0x18),
                       (4, 0x3B), (5, 0x3B), (6, 0x3B), (7, 0x11),
                       (8, 0x20), (9, 0xA2)])
      = [0x33, 0x28, 0x08, 0x18, 0x3B, 0x3B, 0x3B, 0x11, 0x20, 0xA2] := by
  simp [bytes, stores, store, toU8]

/-- The two-step clamp of `prepareVoltasSignal` is the clamp into [16, 30]. -/
theorem clamp_server (T : Int) :
    (if (if T < 16 then 16 else T) > 30 then 30 else (if T < 16 then 16 else T))
      = max 16 (min T 30) := by
  simp only [max_def, min_def]
  split_ifs <;> omega

/-- The if/else-if clamp of `generate_ac_command` is the clamp into [16, 30]. -/
theorem clamp_console (T : Int) :
    (if T < 16 then 16 else if T > 30 then 30 else T) = max 16 (min T 30) := by
  simp only [max_def, min_def]
  split_ifs <;> omega

theorem clamp_range (T : Int) : 16 ≤ max 16 (min T 30) ∧ max 16 (min T 30) ≤ 30 := by
  simp only [max_def, min_def]
  split_ifs <;> omega

/-- Narrowing does not change a value that already fits a byte. -/
theorem toU8_of_fits (x : Int) (h0 : 0 ≤ x) (h1 : x < 256) : toU8 x = x.toNat := by
  unfold toU8
  rw [Int.emod_eq_of_lt h0 h1]

theorem toU8_clamp_cast (T : Int) :
    ((toU8 (max 16 (min T 30)) : Nat) : Int) = max 16 (min T 30) := by
  have h := clamp_range T
  rw [toU8_of_fits _ (by omega) (by omega)]
  omega

/-- The byte a cell holds after narrowing is below 256. -/
theorem toU8_lt (x : Int) : toU8 x < 256 := by
  unfold toU8
  omega

/-- Every execution path of `prepareVoltasSignal` assigns all ten cells: the call
amounts to one run of ten assignments whose values depend on the arguments only,
with fixed values at positions 0 and 4 to 8. -/
theorem prepareVoltasSignal_writes_all (power mode : String) (temp : Int) (fanSpeed : String) :
    ∃ b1 b2 b3 b9 : Int, ∀ buf : Buffer,
      prepareVoltasSignal power mode temp fanSpeed buf
        = stores buf [(0, 0x33), (1, b1), (2, b2), (3, b3), (4, 0x3B), (5, 0x3B),
                      (6, 0x3B), (7, 0x11), (8, 0x20), (9, b9)] := by
  have hLit : equalsIgnoreCase "OFF" "OFF" = true := by decide
  by_cases hOff : equalsIgnoreCase power "OFF" = true
  · refine ⟨0x28, 0x08, 0x18, 0xA2, fun buf => ?_⟩
    rw [prepareVoltasSignal]
    simp only [hOff, dite_true]
  by_cases hOn : equalsIgnoreCase power "ON" = true
  swap
  · refine ⟨0x28, 0x08, 0x18, 0xA2, fun buf => ?_⟩
    rw [prepareVoltasSignal, dif_neg hOff, if_neg hOn, prepareVoltasSignal]
    simp only [hLit, dite_true]
  by_cases hCool : equalsIgnoreCase mode "COOL" = true
  · by_cases hL : equalsIgnoreCase fanSpeed "LOW" = true
    · refine ⟨0x88, 0x80, toU8 (max 16 (min temp 30)),
        0xE2 - toU8 (max 16 (min temp 30)), fun buf => ?_⟩
      rw [prepareVoltasSignal]
      simp only [hOff, hOn, hCool, hL, clamp_server, dite_false, if_true, Bool.true_or]
      funext j
      fin_cases j <;> simp [stores, store]
    by_cases hM : equalsIgnoreCase fanSpeed "MEDIUM" = true
    · refine ⟨0x48, 0x80, toU8 (max 16 (min temp 30)),
        0x22 - toU8 (max 16 (min temp 30)), fun buf => ?_⟩
      rw [prepareVoltasSignal]
      simp only [hOff, hOn, hCool, hL, hM, clamp_server, dite_false, if_true, if_false,
        Bool.true_or, Bool.or_true, Bool.false_or]
      funext j
      fin_cases j <;> simp [stores, store]
    by_cases hH : equalsIgnoreCase fanSpeed "HIGH" = true
    · refine ⟨0x28, 0x80, toU8 (max 16 (min temp 30)),
        0x42 - toU8 (max 16 (min temp 30)), fun buf => ?_⟩
      rw [prepareVoltasSignal]
      simp only [hOff, hOn, hCool, hL, hM, hH, clamp_server, dite_false, if_true, if_false,
        Bool.true_or, Bool.or_true, Bool.false_or]
      funext j
      fin_cases j <;> simp [stores, store]
    by_cases hA : equalsIgnoreCase fanSpeed "AUTO" = true
    · refine ⟨0xE8, 0x80, toU8 (max 16 (min temp 30)),
        0x82 - toU8 (max 16 (min temp 30)), fun buf => ?_⟩
      rw [prepareVoltasSignal]
      simp only [hOff, hOn, hCool, hL, hM, hH, hA, clamp_server, dite_false, if_true,
        if_false, Bool.true_or, Bool.or_true, Bool.false_or]
      funext j
      fin_cases j <;> simp [stores, store]
    · refine ⟨0x28, 0x88, toU8 (max 16 (min temp 30)),
        0x3A - toU8 (max 16 (min temp 30)), fun buf => ?_⟩
      rw [prepareVoltasSignal]
      simp only [hOff, hOn, hCool, hL, hM, hH, hA, clamp_server, dite_false, if_true,
        if_false, Bool.or_false]
      funext j
      fin_cases j <;> simp [stores, store]
  by_cases hHeat : equalsIgnoreCase mode "HEAT" = true
  · refine ⟨0x22, 0x88, toU8 (max 16 (min temp 30)),
      0x40 - toU8 (max 16 (min temp 30)), fun buf => ?_⟩
    rw [prepareVoltasSignal]
    simp only [hOff, hOn, hCool, hHeat, clamp_server, dite_false, if_true, if_false]
    funext j
    fin_cases j <;> simp [stores, store]
  by_cases hDry : equalsIgnoreCase mode "DRY" = true
  · refine ⟨0x84, 0x88, 0x18, 0xC6, fun buf => ?_⟩
    rw [prepareVoltasSignal]
    simp only [hOff, hOn, hCool, hHeat, hDry, dite_false, if_true, if_false]
    funext j
    fin_cases j <;> simp [stores, store]
  by_cases hFanMode : equalsIgnoreCase mode "FAN" = true
  · refine ⟨0x41, 0x88, 0x10, 0x11, fun buf => ?_⟩
    rw [prepareVoltasSignal]
    simp only [hOff, hOn, hCool, hHeat, hDry, hFanMode, dite_false, if_true, if_false]
    funext j
    fin_cases j <;> simp [stores, store]
  · refine ⟨0x28, 0x88, toU8 (max 16 (min temp 30)),
      0x3A - toU8 (max 16 (min temp 30)), fun buf => ?_⟩
    rw [prepareVoltasSignal]
    simp only [hOff, hOn, hCool, hHeat, hDry, hFanMode, clamp_server, dite_false, if_true,
      if_false]
    funext j
    fin_cases j <;> simp [stores, store]

/-- Every execution path of `generate_ac_command` assigns all ten cells: the call
amounts to one run of ten assignments whose values depend on the arguments only,
with fixed values at positions 0 and 4 to 8. -/
theorem generate_ac_command_writes_all
    (power_status mode_choice temp_value fan_speed_choice : Int) :
    ∃ b1 b2 b3 b9 : Int, ∀ buf : Buffer,
      generate_ac_command power_status mode_choice temp_value fan_speed_choice buf
        = stores buf [(0, 0x33), (1, b1), (2, b2), (3, b3), (4, 0x3B), (5, 0x3B),
                      (6, 0x3B), (7, 0x11), (8, 0x20), (9, b9)] := by
  by_cases hOff : power_status = 0
  · refine ⟨0x28, 0x08, 0x18, 0xA2, fun buf => ?_⟩
    rw [generate_ac_command]
    simp only [hOff, dite_true]
  by_cases hm1 : mode_choice = 1
  · by_cases hf1 : fan_speed_choice = 1
    · refine ⟨0x88, 0x80, max 16 (min temp_value 30),
        0xE2 - max 16 (min temp_value 30), fun buf => ?_⟩
      rw [generate_ac_command]
      simp only [hOff, hm1, hf1, clamp_console, dite_false, if_true]
      funext j
      fin_cases j <;> simp [stores, store]
    by_cases hf2 : fan_speed_choice = 2
    · refine ⟨0x48, 0x80, max 16 (min temp_value 30),
        0x22 - max 16 (min temp_value 30), fun buf => ?_⟩
      rw [generate_ac_command]
      simp only [hOff, hm1, hf1, hf2, clamp_console, dite_false, if_true, if_false]
      funext j
      fin_cases j <;> simp [stores, store]
    by_cases hf3 : fan_speed_choice = 3
    · refine ⟨0x28, 0x80, max 16 (min temp_value 30),
        0x42 - max 16 (min temp_value 30), fun buf => ?_⟩
      rw [generate_ac_command]
      simp only [hOff, hm1, hf1, hf2, hf3, clamp_console, dite_false, if_true, if_false]
      funext j
      fin_cases j <;> simp [stores, store]
    by_cases hf4 : fan_speed_choice = 4
    · refine ⟨0xE8, 0x80, max 16 (min temp_value 30),
        0x82 - max 16 (min temp_value 30), fun buf => ?_⟩
      rw [generate_ac_command]
      simp only [hOff, hm1, hf1, hf2, hf3, hf4, clamp_console, dite_false, if_true, if_false]
      funext j
      fin_cases j <;> simp [stores, store]
    · refine ⟨0x28, 0x88, max 16 (min temp_value 30),
        0x3A - max 16 (min temp_value 30), fun buf => ?_⟩
      rw [generate_ac_command]
      simp only [hOff, hm1, hf1, hf2, hf3, hf4, clamp_console, dite_false, if_true, if_false]
      funext j
      fin_cases j <;> simp [stores, store]
  by_cases hm2 : mode_choice = 2
  · refine ⟨0x84, 0x88, 0x18, 0xC6, fun buf => ?_⟩
    rw [generate_ac_command]
    simp only [hOff, hm1, hm2, dite_false, if_true, if_false]
    funext j
    fin_cases j <;> simp [stores, store]
  by_cases hm3 : mode_choice = 3
  · refine ⟨0x22, 0x88, max 16 (min temp_value 30),
      0x40 - max 16 (min temp_value 30), fun buf => ?_⟩
    rw [generate_ac_command]
    simp only [hOff, hm1, hm2, hm3, clamp_console, dite_false, if_true, if_false]
    funext j
    fin_cases j <;> simp [stores, store]
  by_cases hm4 : mode_choice = 4
  · refine ⟨0x41, 0x88, 0x10, 0x11, fun buf => ?_⟩
    rw [generate_ac_command]
    simp only [hOff, hm1, hm2, hm3, hm4, dite_false, if_true, if_false]
    funext j
    fin_cases j <;> simp [stores, store]
  · refine ⟨0x28, 0x08, 0x18, 0xA2, fun buf => ?_⟩
    rw [generate_ac_command]
    simp only [hOff, hm1, hm2, hm3, hm4, dite_false, if_false]
    rw [generate_ac_command]
    simp only [dite_true]
    funext j
    fin_cases j <;> simp [stores, store]

/-- A run of assignments that covers all ten cells erases the previous contents. -/
theorem stores_full_forgets (buf1 buf2 : Buffer) (v0 v1 v2 v3 v4 v5 v6 v7 v8 v9 : Int) :
    stores buf1 [(0, v0), (1, v1), (2, v2), (3, v3), (4, v4), (5, v5),
                 (6, v6), (7, v7), (8, v8), (9, v9)]
      = stores buf2 [(0, v0), (1, v1), (2, v2), (3, v3), (4, v4), (5, v5),
                     (6, v6), (7, v7), (8, v8), (9, v9)] := by
  funext j
  fin_cases j <;> simp [stores, store]

/-- Strings that agree after lowering give the same answer against any keyword. -/
theorem equalsIgnoreCase_congr (s t kw : String)
    (h : s.data.map Char.toLower = t.data.map Char.toLower) :
    equalsIgnoreCase s kw = equalsIgnoreCase t kw := by
  rw [Bool.eq_iff_iff, equalsIgnoreCase_iff, equalsIgnoreCase_iff, h]

/-! ## The claims -/

/-- C1: a request whose power is OFF yields the fixed OFF sequence, whatever the
mode, temperature and fan: for `prepareVoltasSignal` when the power string
equals "OFF" ignoring case, and for `generate_ac_command` when
`power_status = 0`. -/
theorem off_is_fixed_constant (power mode : String) (temp : Int) (fanSpeed : String)
    (mode_choice temp_value fan_speed_choice : Int) (buf : Buffer)
    (hOff : equalsIgnoreCase power "OFF" = true) :
    bytes (prepareVoltasSignal power mode temp fanSpeed buf)
        = [0x33, 0x28, 0x08, 0x18, 0x3B, 0x3B, 0x3B, 0x11, 0x20, 0xA2] ∧
    bytes (generate_ac_command 0 mode_choice temp_value fan_speed_choice buf)
        = [0x33, 0x28, 0x08, 0x18, 0x3B, 0x3B, 0x3B, 0x11, 0x20, 0xA2] := by
  constructor
  · rw [prepareVoltasSignal]
    simp only [hOff, dite_true]
    exact bytes_stores_off buf
  · rw [generate_ac_command]
    simp only [dite_true]
    exact bytes_stores_off buf

theorem off_is_fixed_constant_witness :
    equalsIgnoreCase "Off" "OFF" = true ∧
    bytes (prepareVoltasSignal "Off" "HEAT" 99 "turbo" (fun _ => 7))
        = [0x33, 0x28, 0x08, 0x18, 0x3B, 0x3B, 0x3B, 0x11, 0x20, 0xA2] ∧
    bytes (generate_ac_command 0 9 (-3) 42 (fun _ => 7))
        = [0x33, 0x28, 0x08, 0x18, 0x3B, 0x3B, 0x3B, 0x11, 0x20, 0xA2] :=
  ⟨by decide, off_is_fixed_constant "Off" "HEAT" 99 "turbo" 9 (-3) 42 (fun _ => 7) (by decide)⟩

/-- C2: every power string that is not "ON" ignoring case makes
`prepareVoltasSignal` yield the fixed OFF sequence, whatever the mode,
temperature and fan. -/
theorem not_on_is_off (power mode : String) (temp : Int) (fanSpeed : String) (buf : Buffer)
    (hNotOn : equalsIgnoreCase power "ON" = false) :
    bytes (prepareVoltasSignal power mode temp fanSpeed buf)
      = [0x33, 0x28, 0x08, 0x18, 0x3B, 0x3B, 0x3B, 0x11, 0x20, 0xA2] := by
  have hLit : equalsIgnoreCase "OFF" "OFF" = true := by decide
  rw [prepareVoltasSignal]
  by_cases hOff : equalsIgnoreCase power "OFF" = true
  · simp only [hOff, dite_true]
    exact bytes_stores_off buf
  · rw [dif_neg hOff, hNotOn, prepareVoltasSignal]
    simp only [hLit, dite_true]
    exact bytes_stores_off buf

theorem not_on_is_off_witness :
    equalsIgnoreCase " on" "ON" = false ∧
    bytes (prepareVoltasSignal " on" "COOL" 24 "LOW" (fun _ => 0))
      = [0x33, 0x28, 0x08, 0x18, 0x3B, 0x3B, 0x3B, 0x11, 0x20, 0xA2] :=
  ⟨by decide, not_on_is_off " on" "COOL" 24 "LOW" (fun _ => 0) (by decide)⟩

/-- C3: power ON, mode COOL and an explicit fan speed. For each row (keyword,
console choice, byte 1, constant K) of LOW, MEDIUM, HIGH, AUTO and every integer
temperature, both encoders leave 0x33, byte 1, 0x80, t, 0x3B, 0x3B, 0x3B, 0x11,
0x20, (K - t) mod 256, with t the temperature clamped into [16, 30]; COOL at 24
with LOW gives the sequence ending in 0xCA. -/
theorem cool_explicit_fan (power mode : String) (temp : Int) (fanSpeed : String)
    (buf : Buffer) (name : String) (choice : Int) (b1 : Nat) (K : Int)
    (hOn : equalsIgnoreCase power "ON" = true)
    (hCool : equalsIgnoreCase mode "COOL" = true)
    (hRow : (name, choice, b1, K) ∈
      [("LOW", 1, 0x88, 0xE2), ("MEDIUM", 2, 0x48, 0x22),
       ("HIGH", 3, 0x28, 0x42), ("AUTO", 4, 0xE8, 0x82)])
    (hFan : equalsIgnoreCase fanSpeed name = true) :
    bytes (prepareVoltasSignal power mode temp fanSpeed buf)
        = [0x33, b1, 0x80, (max 16 (min temp 30)).toNat, 0x3B, 0x3B, 0x3B, 0x11, 0x20,
           ((K - max 16 (min temp 30)) % 256).toNat] ∧
    bytes (generate_ac_command 1 1 temp choice buf)
        = [0x33, b1, 0x80, (max 16 (min temp 30)).toNat, 0x3B, 0x3B, 0x3B, 0x11, 0x20,
           ((K - max 16 (min temp 30)) % 256).toNat] ∧
    bytes (prepareVoltasSignal "ON" "COOL" 24 "LOW" buf)
        = [0x33, 0x88, 0x80, 0x18, 0x3B, 0x3B, 0x3B, 0x11, 0x20, 0xCA] := by
  have hNotOff : equalsIgnoreCase power "OFF" = false :=
    equalsIgnoreCase_exclusive power "ON" "OFF" hOn (by decide)
  have hr := clamp_range temp
  have hc := toU8_clamp_cast temp
  have hu : toU8 (max 16 (min temp 30)) = (max 16 (min temp 30)).toNat :=
    toU8_of_fits _ (by omega) (by omega)
  refine ⟨?_, ?_, ?_⟩
  · rw [prepareVoltasSignal]
    simp only [List.mem_cons, Prod.mk.injEq, List.mem_singleton, List.not_mem_nil,
      or_false] at hRow
    rcases hRow with ⟨rfl, rfl, rfl, rfl⟩ | ⟨rfl, rfl, rfl, rfl⟩ | ⟨rfl, rfl, rfl, rfl⟩ |
      ⟨rfl, rfl, rfl, rfl⟩
    · simp [hNotOff, hOn, hCool, hFan, clamp_server, hc, bytes, stores, store, hu]
      simp [toU8]
    · have h1 : equalsIgnoreCase fanSpeed "LOW" = false :=
        equalsIgnoreCase_exclusive fanSpeed "MEDIUM" "LOW" hFan (by decide)
      simp [hNotOff, hOn, hCool, hFan, h1, clamp_server, hc, bytes, stores, store, hu]
      simp [toU8]
    · have h1 : equalsIgnoreCase fanSpeed "LOW" = false :=
        equalsIgnoreCase_exclusive fanSpeed "HIGH" "LOW" hFan (by decide)
      have h2 : equalsIgnoreCase fanSpeed "MEDIUM" = false :=
        equalsIgnoreCase_exclusive fanSpeed "HIGH" "MEDIUM" hFan (by decide)
      simp [hNotOff, hOn, hCool, hFan, h1, h2, clamp_server, hc, bytes, stores, store, hu]
      simp [toU8]
    · have h1 : equalsIgnoreCase fanSpeed "LOW" = false :=
        equalsIgnoreCase_exclusive fanSpeed "AUTO" "LOW" hFan (by decide)
      have h2 : equalsIgnoreCase fanSpeed "MEDIUM" = false :=
        equalsIgnoreCase_exclusive fanSpeed "AUTO" "MEDIUM" hFan (by decide)
      have h3 : equalsIgnoreCase fanSpeed "HIGH" = false :=
        equalsIgnoreCase_exclusive fanSpeed "AUTO" "HIGH" hFan (by decide)
      simp [hNotOff, hOn, hCool, hFan, h1, h2, h3, clamp_server, hc, bytes, stores, store, hu]
      simp [toU8]
  · rw [generate_ac_command]
    simp only [List.mem_cons, Prod.mk.injEq, List.mem_singleton, List.not_mem_nil,
      or_false] at hRow
    rcases hRow with ⟨rfl, rfl, rfl, rfl⟩ | ⟨rfl, rfl, rfl, rfl⟩ | ⟨rfl, rfl, rfl, rfl⟩ |
      ⟨rfl, rfl, rfl, rfl⟩ <;>
    · simp [clamp_console, bytes, stores, store, hu]
      simp [toU8]
  · have hLit1 : equalsIgnoreCase "ON" "OFF" = false := by decide
    have hLit2 : equalsIgnoreCase "ON" "ON" = true := by decide
    have hLit3 : equalsIgnoreCase "COOL" "COOL" = true := by decide
    have hLit4 : equalsIgnoreCase "LOW" "LOW" = true := by decide
    rw [prepareVoltasSignal]
    simp [hLit1, hLit2, hLit3, hLit4, bytes, stores, store]
    decide

theorem cool_explicit_fan_witness :
    equalsIgnoreCase "on" "ON" = true ∧ equalsIgnoreCase "Cool" "COOL" = true ∧
    equalsIgnoreCase "medium" "MEDIUM" = true ∧
    bytes (prepareVoltasSignal "on" "Cool" 12 "medium" (fun _ => 0))
        = [0x33, 0x48, 0x80, 16, 0x3B, 0x3B, 0x3B, 0x11, 0x20, 18] ∧
    bytes (generate_ac_command 1 1 12 2 (fun _ => 0))
        = [0x33, 0x48, 0x80, 16, 0x3B, 0x3B, 0x3B, 0x11, 0x20, 18] ∧
    bytes (prepareVoltasSignal "ON" "COOL" 24 "LOW" (fun _ => 0))
        = [0x33, 0x88, 0x80, 0x18, 0x3B, 0x3B, 0x3B, 0x11, 0x20, 0xCA] :=
  ⟨by decide, by decide, by decide,
   cool_explicit_fan "on" "Cool" 12 "medium" (fun _ => 0) "MEDIUM" 2 0x48 0x22
     (by decide) (by decide) (by simp) (by decide)⟩

/-- C4: power ON, mode COOL and a fan value that is none of LOW, MEDIUM, HIGH,
AUTO (for the console: a choice outside 1..4): both encoders leave 0x33, 0x28,
0x88, t, 0x3B, 0x3B, 0x3B, 0x11, 0x20, (0x3A - t) mod 256, with t the temperature
clamped into [16, 30]; byte 2 is 0x88, not the 0x80 of an explicit fan speed. -/
theorem cool_default_fan (power mode : String) (temp : Int) (fanSpeed : String)
    (fan_speed_choice : Int) (buf : Buffer)
    (hOn : equalsIgnoreCase power "ON" = true)
    (hCool : equalsIgnoreCase mode "COOL" = true)
    (hFan : ∀ kw ∈ ["LOW", "MEDIUM", "HIGH", "AUTO"], equalsIgnoreCase fanSpeed kw = false)
    (hChoice : fan_speed_choice ∉ [1, 2, 3, 4]) :
    bytes (prepareVoltasSignal power mode temp fanSpeed buf)
        = [0x33, 0x28, 0x88, (max 16 (min temp 30)).toNat, 0x3B, 0x3B, 0x3B, 0x11, 0x20,
           ((0x3A - max 16 (min temp 30)) % 256).toNat] ∧
    bytes (generate_ac_command 1 1 temp fan_speed_choice buf)
        = [0x33, 0x28, 0x88, (max 16 (min temp 30)).toNat, 0x3B, 0x3B, 0x3B, 0x11, 0x20,
           ((0x3A - max 16 (min temp 30)) % 256).toNat] := by
  have hNotOff : equalsIgnoreCase power "OFF" = false :=
    equalsIgnoreCase_exclusive power "ON" "OFF" hOn (by decide)
  have hr := clamp_range temp
  have hc := toU8_clamp_cast temp
  have hu : toU8 (max 16 (min temp 30)) = (max 16 (min temp 30)).toNat :=
    toU8_of_fits _ (by omega) (by omega)
  have h1 := hFan "LOW" (by simp)
  have h2 := hFan "MEDIUM" (by simp)
  have h3 := hFan "HIGH" (by simp)
  have h4 := hFan "AUTO" (by simp)
  simp only [List.mem_cons, List.mem_singleton, List.not_mem_nil, or_false, not_or] at hChoice
  obtain ⟨c1, c2, c3, c4⟩ := hChoice
  constructor
  · rw [prepareVoltasSignal]
    simp [hNotOff, hOn, hCool, h1, h2, h3, h4, clamp_server, hc, bytes, stores, store, hu]
    simp [toU8]
  · rw [generate_ac_command]
    simp [c1, c2, c3, c4, clamp_console, bytes, stores, store, hu]
    simp [toU8]

theorem cool_default_fan_witness :
    equalsIgnoreCase "ON" "ON" = true ∧ equalsIgnoreCase "cool" "COOL" = true ∧
    (∀ kw ∈ ["LOW", "MEDIUM", "HIGH", "AUTO"], equalsIgnoreCase "NONE" kw = false) ∧
    (0 : Int) ∉ [1, 2, 3, 4] ∧
    bytes (prepareVoltasSignal "ON" "cool" 40 "NONE" (fun _ => 0))
        = [0x33, 0x28, 0x88, 30, 0x3B, 0x3B, 0x3B, 0x11, 0x20, 28] ∧
    bytes (generate_ac_command 1 1 40 0 (fun _ => 0))
        = [0x33, 0x28, 0x88, 30, 0x3B, 0x3B, 0x3B, 0x11, 0x20, 28] :=
  ⟨by decide, by decide, by decide, by decide,
   cool_default_fan "ON" "cool" 40 "NONE" 0 (fun _ => 0)
     (by decide) (by decide) (by decide) (by decide)⟩

/-- C5: power ON and mode HEAT: for every integer temperature and every fan
value both encoders leave 0x33, 0x22, 0x88, t, 0x3B, 0x3B, 0x3B, 0x11, 0x20,
(0x40 - t) mod 256, with t the temperature clamped into [16, 30], so the fan has
no effect; HEAT at 35 clamps to 30 and gives the sequence 0x33, 0x22, 0x88, 0x1E,
0x3B, 0x3B, 0x3B, 0x11, 0x20, 0x22. -/
theorem heat_row (power mode : String) (temp : Int) (fanSpeed : String)
    (fan_speed_choice : Int) (buf : Buffer)
    (hOn : equalsIgnoreCase power "ON" = true)
    (hHeat : equalsIgnoreCase mode "HEAT" = true) :
    bytes (prepareVoltasSignal power mode temp fanSpeed buf)
        = [0x33, 0x22, 0x88, (max 16 (min temp 30)).toNat, 0x3B, 0x3B, 0x3B, 0x11, 0x20,
           ((0x40 - max 16 (min temp 30)) % 256).toNat] ∧
    bytes (generate_ac_command 1 3 temp fan_speed_choice buf)
        = [0x33, 0x22, 0x88, (max 16 (min temp 30)).toNat, 0x3B, 0x3B, 0x3B, 0x11, 0x20,
           ((0x40 - max 16 (min temp 30)) % 256).toNat] ∧
    bytes (prepareVoltasSignal power mode 35 fanSpeed buf)
        = [0x33, 0x22, 0x88, 0x1E, 0x3B, 0x3B, 0x3B, 0x11, 0x20, 0x22] ∧
    bytes (generate_ac_command 1 3 35 fan_speed_choice buf)
        = [0x33, 0x22, 0x88, 0x1E, 0x3B, 0x3B, 0x3B, 0x11, 0x20, 0x22] := by
  have hNotOff : equalsIgnoreCase power "OFF" = false :=
    equalsIgnoreCase_exclusive power "ON" "OFF" hOn (by decide)
  have hNotCool : equalsIgnoreCase mode "COOL" = false :=
    equalsIgnoreCase_exclusive mode "HEAT" "COOL" hHeat (by decide)
  have hServer : ∀ T : Int, bytes (prepareVoltasSignal power mode T fanSpeed buf)
        = [0x33, 0x22, 0x88, (max 16 (min T 30)).toNat, 0x3B, 0x3B, 0x3B, 0x11, 0x20,
           ((0x40 - max 16 (min T 30)) % 256).toNat] := by
    intro T
    have hr := clamp_range T
    have hc := toU8_clamp_cast T
    have hu : toU8 (max 16 (min T 30)) = (max 16 (min T 30)).toNat :=
      toU8_of_fits _ (by omega) (by omega)
    rw [prepareVoltasSignal]
    simp [hNotOff, hOn, hNotCool, hHeat, clamp_server, hc, bytes, stores, store, hu]
    simp [toU8]
  have hConsole : ∀ T : Int, bytes (generate_ac_command 1 3 T fan_speed_choice buf)
        = [0x33, 0x22, 0x88, (max 16 (min T 30)).toNat, 0x3B, 0x3B, 0x3B, 0x11, 0x20,
           ((0x40 - max 16 (min T 30)) % 256).toNat] := by
    intro T
    have hr := clamp_range T
    have hu : toU8 (max 16 (min T 30)) = (max 16 (min T 30)).toNat :=
      toU8_of_fits _ (by omega) (by omega)
    rw [generate_ac_command]
    simp [clamp_console, bytes, stores, store, hu]
    simp [toU8]
  exact ⟨hServer temp, hConsole temp, hServer 35, hConsole 35⟩

theorem heat_row_witness :
    equalsIgnoreCase "On" "ON" = true ∧ equalsIgnoreCase "heat" "HEAT" = true ∧
    bytes (prepareVoltasSignal "On" "heat" (-5) "HIGH" (fun _ => 0))
        = [0x33, 0x22, 0x88, 16, 0x3B, 0x3B, 0x3B, 0x11, 0x20, 0x30] ∧
    bytes (generate_ac_command 1 3 (-5) 3 (fun _ => 0))
        = [0x33, 0x22, 0x88, 16, 0x3B, 0x3B, 0x3B, 0x11, 0x20, 0x30] ∧
    bytes (prepareVoltasSignal "On" "heat" 35 "HIGH" (fun _ => 0))
        = [0x33, 0x22, 0x88, 0x1E, 0x3B, 0x3B, 0x3B, 0x11, 0x20, 0x22] ∧
    bytes (generate_ac_command 1 3 35 3 (fun _ => 0))
        = [0x33, 0x22, 0x88, 0x1E, 0x3B, 0x3B, 0x3B, 0x11, 0x20, 0x22] :=
  ⟨by decide, by decide,
   heat_row "On" "heat" (-5) "HIGH" 3 (fun _ => 0) (by decide) (by decide)⟩

/-- C6: power ON with mode DRY or FAN gives a fixed signal in both encoders,
whatever the temperature and the fan value: DRY leaves 0x33, 0x84, 0x88, 0x18,
0x3B, 0x3B, 0x3B, 0x11, 0x20, 0xC6 and FAN leaves 0x33, 0x41, 0x88, 0x10, 0x3B,
0x3B, 0x3B, 0x11, 0x20, 0x11. -/
theorem dry_and_fan_fixed (power mode : String) (temp : Int) (fanSpeed : String)
    (temp_value fan_speed_choice : Int) (buf : Buffer)
    (hOn : equalsIgnoreCase power "ON" = true) :
    (equalsIgnoreCase mode "DRY" = true →
      bytes (prepareVoltasSignal power mode temp fanSpeed buf)
        = [0x33, 0x84, 0x88, 0x18, 0x3B, 0x3B, 0x3B, 0x11, 0x20, 0xC6]) ∧
    (equalsIgnoreCase mode "FAN" = true →
      bytes (prepareVoltasSignal power mode temp fanSpeed buf)
        = [0x33, 0x41, 0x88, 0x10, 0x3B, 0x3B, 0x3B, 0x11, 0x20, 0x11]) ∧
    bytes (generate_ac_command 1 2 temp_value fan_speed_choice buf)
        = [0x33, 0x84, 0x88, 0x18, 0x3B, 0x3B, 0x3B, 0x11, 0x20, 0xC6] ∧
    bytes (generate_ac_command 1 4 temp_value fan_speed_choice buf)
        = [0x33, 0x41, 0x88, 0x10, 0x3B, 0x3B, 0x3B, 0x11, 0x20, 0x11] := by
  have hNotOff : equalsIgnoreCase power "OFF" = false :=
    equalsIgnoreCase_exclusive power "ON" "OFF" hOn (by decide)
  refine ⟨?_, ?_, ?_, ?_⟩
  · intro hDry
    have m1 : equalsIgnoreCase mode "COOL" = false :=
      equalsIgnoreCase_exclusive mode "DRY" "COOL" hDry (by decide)
    have m2 : equalsIgnoreCase mode "HEAT" = false :=
      equalsIgnoreCase_exclusive mode "DRY" "HEAT" hDry (by decide)
    rw [prepareVoltasSignal]
    simp [hNotOff, hOn, m1, m2, hDry, bytes, stores, store]
    simp [toU8]
  · intro hFanMode
    have m1 : equalsIgnoreCase mode "COOL" = false :=
      equalsIgnoreCase_exclusive mode "FAN" "COOL" hFanMode (by decide)
    have m2 : equalsIgnoreCase mode "HEAT" = false :=
      equalsIgnoreCase_exclusive mode "FAN" "HEAT" hFanMode (by decide)
    have m3 : equalsIgnoreCase mode "DRY" = false :=
      equalsIgnoreCase_exclusive mode "FAN" "DRY" hFanMode (by decide)
    rw [prepareVoltasSignal]
    simp [hNotOff, hOn, m1, m2, m3, hFanMode, bytes, stores, store]
    simp [toU8]
  · rw [generate_ac_command]
    simp [bytes, stores, store]
    simp [toU8]
  · rw [generate_ac_command]
    simp [bytes, stores, store]
    simp [toU8]

theorem dry_and_fan_fixed_witness :
    equalsIgnoreCase "ON" "ON" = true ∧
    equalsIgnoreCase "dry" "DRY" = true ∧
    bytes (prepareVoltasSignal "ON" "dry" 77 "LOW" (fun _ => 0))
        = [0x33, 0x84, 0x88, 0x18, 0x3B, 0x3B, 0x3B, 0x11, 0x20, 0xC6] ∧
    equalsIgnoreCase "Fan" "FAN" = true ∧
    bytes (prepareVoltasSignal "ON" "Fan" (-2) "AUTO" (fun _ => 0))
        = [0x33, 0x41, 0x88, 0x10, 0x3B, 0x3B, 0x3B, 0x11, 0x20, 0x11] ∧
    bytes (generate_ac_command 1 2 77 1 (fun _ => 0))
        = [0x33, 0x84, 0x88, 0x18, 0x3B, 0x3B, 0x3B, 0x11, 0x20, 0xC6] ∧
    bytes (generate_ac_command 1 4 77 1 (fun _ => 0))
        = [0x33, 0x41, 0x88, 0x10, 0x3B, 0x3B, 0x3B, 0x11, 0x20, 0x11] :=
  ⟨by decide, by decide,
   (dry_and_fan_fixed "ON" "dry" 77 "LOW" 77 1 (fun _ => 0) (by decide)).1 (by decide),
   by decide,
   (dry_and_fan_fixed "ON" "Fan" (-2) "AUTO" 77 1 (fun _ => 0) (by decide)).2.1 (by decide),
   (dry_and_fan_fixed "ON" "dry" 77 "LOW" 77 1 (fun _ => 0) (by decide)).2.2⟩

/-- C7: power ON and a mode string that is none of COOL, HEAT, DRY, FAN ignoring
case: `prepareVoltasSignal` returns the COOL/DEFAULT row 0x33, 0x28, 0x88, t,
0x3B, 0x3B, 0x3B, 0x11, 0x20, (0x3A - t) mod 256 for every integer temperature
(t its clamp into [16, 30]) and every fan value, explicit speeds included; at
temperature 24 with fan "NONE" the sequence ends in 0x22. -/
theorem unknown_mode_is_cool_default (power mode : String) (temp : Int) (fanSpeed : String)
    (buf : Buffer)
    (hOn : equalsIgnoreCase power "ON" = true)
    (hMode : ∀ kw ∈ ["COOL", "HEAT", "DRY", "FAN"], equalsIgnoreCase mode kw = false) :
    bytes (prepareVoltasSignal power mode temp fanSpeed buf)
        = [0x33, 0x28, 0x88, (max 16 (min temp 30)).toNat, 0x3B, 0x3B, 0x3B, 0x11, 0x20,
           ((0x3A - max 16 (min temp 30)) % 256).toNat] ∧
    bytes (prepareVoltasSignal power mode 24 "NONE" buf)
        = [0x33, 0x28, 0x88, 0x18, 0x3B, 0x3B, 0x3B, 0x11, 0x20, 0x22] := by
  have hNotOff : equalsIgnoreCase power "OFF" = false :=
    equalsIgnoreCase_exclusive power "ON" "OFF" hOn (by decide)
  have m1 := hMode "COOL" (by simp)
  have m2 := hMode "HEAT" (by simp)
  have m3 := hMode "DRY" (by simp)
  have m4 := hMode "FAN" (by simp)
  have hAll : ∀ (T : Int) (fan : String), bytes (prepareVoltasSignal power mode T fan buf)
        = [0x33, 0x28, 0x88, (max 16 (min T 30)).toNat, 0x3B, 0x3B, 0x3B, 0x11, 0x20,
           ((0x3A - max 16 (min T 30)) % 256).toNat] := by
    intro T fan
    have hr := clamp_range T
    have hc := toU8_clamp_cast T
    have hu : toU8 (max 16 (min T 30)) = (max 16 (min T 30)).toNat :=
      toU8_of_fits _ (by omega) (by omega)
    rw [prepareVoltasSignal]
    simp [hNotOff, hOn, m1, m2, m3, m4, clamp_server, hc, bytes, stores, store, hu]
    simp [toU8]
  exact ⟨hAll temp fanSpeed, hAll 24 "NONE"⟩

theorem unknown_mode_is_cool_default_witness :
    equalsIgnoreCase "on" "ON" = true ∧
    (∀ kw ∈ ["COOL", "HEAT", "DRY", "FAN"], equalsIgnoreCase "TURBO" kw = false) ∧
    bytes (prepareVoltasSignal "on" "TURBO" 18 "HIGH" (fun _ => 0))
        = [0x33, 0x28, 0x88, 18, 0x3B, 0x3B, 0x3B, 0x11, 0x20, 40] ∧
    bytes (prepareVoltasSignal "on" "TURBO" 24 "NONE" (fun _ => 0))
        = [0x33, 0x28, 0x88, 0x18, 0x3B, 0x3B, 0x3B, 0x11, 0x20, 0x22] :=
  ⟨by decide, by decide,
   unknown_mode_is_cool_default "on" "TURBO" 18 "HIGH" (fun _ => 0) (by decide) (by decide)⟩

/-- C8: for every input, valid or not, the generated signal has exactly ten
cells, each an unsigned 8-bit value, and byte 0 is 0x33; for every ON signal
bytes 4 to 8 are 0x3B, 0x3B, 0x3B, 0x11, 0x20 whatever the mode, so only bytes 1,
2, 3 and 9 vary. Stated for both encoders. -/
theorem signal_shape (power mode : String) (temp : Int) (fanSpeed : String)
    (power_status mode_choice temp_value fan_speed_choice : Int) (buf : Buffer) :
    ((bytes (prepareVoltasSignal power mode temp fanSpeed buf)).length = VOLTAS_CMD_LENGTH ∧
     (∀ b ∈ bytes (prepareVoltasSignal power mode temp fanSpeed buf), b < 256) ∧
     prepareVoltasSignal power mode temp fanSpeed buf 0 = 0x33 ∧
     (equalsIgnoreCase power "ON" = true →
       ((bytes (prepareVoltasSignal power mode temp fanSpeed buf)).drop 4).take 5
         = [0x3B, 0x3B, 0x3B, 0x11, 0x20])) ∧
    ((bytes (generate_ac_command power_status mode_choice temp_value fan_speed_choice
        buf)).length = VOLTAS_CMD_LENGTH ∧
     (∀ b ∈ bytes (generate_ac_command power_status mode_choice temp_value fan_speed_choice
        buf), b < 256) ∧
     generate_ac_command power_status mode_choice temp_value fan_speed_choice buf 0 = 0x33 ∧
     (power_status = 1 →
       ((bytes (generate_ac_command power_status mode_choice temp_value fan_speed_choice
          buf)).drop 4).take 5 = [0x3B, 0x3B, 0x3B, 0x11, 0x20])) := by
  obtain ⟨b1, b2, b3, b9, hS⟩ := prepareVoltasSignal_writes_all power mode temp fanSpeed
  obtain ⟨c1, c2, c3, c9, hC⟩ :=
    generate_ac_command_writes_all power_status mode_choice temp_value fan_speed_choice
  have k1 : toU8 51 = 51 := by decide
  have k2 : toU8 59 = 59 := by decide
  have k3 : toU8 17 = 17 := by decide
  have k4 : toU8 32 = 32 := by decide
  rw [hS buf, hC buf]
  simp [bytes, stores, store, toU8_lt, VOLTAS_CMD_LENGTH, k1, k2, k3, k4]

theorem signal_shape_witness :
    equalsIgnoreCase "ON" "ON" = true ∧
    ((bytes (prepareVoltasSignal "ON" "HEAT" 20 "" (fun _ => 0))).drop 4).take 5
         = [0x3B, 0x3B, 0x3B, 0x11, 0x20] ∧
    ((bytes (generate_ac_command 1 3 20 0 (fun _ => 0))).drop 4).take 5
         = [0x3B, 0x3B, 0x3B, 0x11, 0x20] :=
  ⟨by decide,
   (signal_shape "ON" "HEAT" 20 "" 1 3 20 0 (fun _ => 0)).1.2.2.2 (by decide),
   (signal_shape "ON" "HEAT" 20 "" 1 3 20 0 (fun _ => 0)).2.2.2.2 rfl⟩

/-- C9: the encoder has no hidden state. For every input and any two initial
contents of the global buffer the buffer after one call is the same, for
`prepareVoltasSignal` and for `generate_ac_command`; hence a second call with
the same input reproduces the first result whatever call came in between. -/
theorem no_hidden_state (power mode : String) (temp : Int) (fanSpeed : String)
    (power_status mode_choice temp_value fan_speed_choice : Int) (buf1 buf2 : Buffer) :
    prepareVoltasSignal power mode temp fanSpeed buf1
      = prepareVoltasSignal power mode temp fanSpeed buf2 ∧
    generate_ac_command power_status mode_choice temp_value fan_speed_choice buf1
      = generate_ac_command power_status mode_choice temp_value fan_speed_choice buf2 ∧
    (∀ (p m : String) (t : Int) (f : String),
      prepareVoltasSignal power mode temp fanSpeed
          (prepareVoltasSignal p m t f (prepareVoltasSignal power mode temp fanSpeed buf1))
        = prepareVoltasSignal power mode temp fanSpeed buf1) ∧
    (∀ p m t f : Int,
      generate_ac_command power_status mode_choice temp_value fan_speed_choice
          (generate_ac_command p m t f
            (generate_ac_command power_status mode_choice temp_value fan_speed_choice buf1))
        = generate_ac_command power_status mode_choice temp_value fan_speed_choice buf1) := by
  obtain ⟨b1, b2, b3, b9, hS⟩ := prepareVoltasSignal_writes_all power mode temp fanSpeed
  obtain ⟨c1, c2, c3, c9, hC⟩ :=
    generate_ac_command_writes_all power_status mode_choice temp_value fan_speed_choice
  refine ⟨?_, ?_, ?_, ?_⟩
  · rw [hS buf1, hS buf2]
    exact stores_full_forgets buf1 buf2 _ _ _ _ _ _ _ _ _ _
  · rw [hC buf1, hC buf2]
    exact stores_full_forgets buf1 buf2 _ _ _ _ _ _ _ _ _ _
  · intro p m t f
    rw [hS buf1, hS (prepareVoltasSignal p m t f _)]
    exact stores_full_forgets _ buf1 _ _ _ _ _ _ _ _ _ _
  · intro p m t f
    rw [hC buf1, hC (generate_ac_command p m t f _)]
    exact stores_full_forgets _ buf1 _ _ _ _ _ _ _ _ _ _

/-- C10: `prepareVoltasSignal` compares its power, mode and fan strings without
regard to case: replacing the three strings by variants that differ only in the
case of ASCII letters (equal once every character is lowered) leaves the ten
bytes unchanged, for every temperature. -/
theorem case_insensitive (power mode fanSpeed power2 mode2 fanSpeed2 : String) (temp : Int)
    (buf : Buffer)
    (hPower : power.data.map Char.toLower = power2.data.map Char.toLower)
    (hMode : mode.data.map Char.toLower = mode2.data.map Char.toLower)
    (hFan : fanSpeed.data.map Char.toLower = fanSpeed2.data.map Char.toLower) :
    bytes (prepareVoltasSignal power mode temp fanSpeed buf)
      = bytes (prepareVoltasSignal power2 mode2 temp fanSpeed2 buf) := by
  have eP := fun kw => equalsIgnoreCase_congr power power2 kw hPower
  have eM := fun kw => equalsIgnoreCase_congr mode mode2 kw hMode
  have eF := fun kw => equalsIgnoreCase_congr fanSpeed fanSpeed2 kw hFan
  have hEq : prepareVoltasSignal power mode temp fanSpeed buf
      = prepareVoltasSignal power2 mode2 temp fanSpeed2 buf := by
    conv_lhs => rw [prepareVoltasSignal]
    conv_rhs => rw [prepareVoltasSignal]
    simp only [eP, eM, eF]
  rw [hEq]

theorem case_insensitive_witness :
    "on".data.map Char.toLower = "ON".data.map Char.toLower ∧
    "Cool".data.map Char.toLower = "COOL".data.map Char.toLower ∧
    "low".data.map Char.toLower = "LOW".data.map Char.toLower ∧
    bytes (prepareVoltasSignal "on" "Cool" 24 "low" (fun _ => 0))
      = bytes (prepareVoltasSignal "ON" "COOL" 24 "LOW" (fun _ => 0)) :=
  ⟨by decide, by decide, by decide,
   case_insensitive "on" "Cool" "low" "ON" "COOL" "LOW" 24 (fun _ => 0)
     (by decide) (by decide) (by decide)⟩

/-! ## Termination and call depth -/

/-- With a budget of two activations `prepareVoltasSignalDepth` returns what
`prepareVoltasSignal` returns. -/
theorem prepareVoltasSignalDepth_two (d : Nat) (power mode : String) (temp : Int)
    (fanSpeed : String) (buf : Buffer) :
    prepareVoltasSignalDepth (d + 2) power mode temp fanSpeed buf
      = some (prepareVoltasSignal power mode temp fanSpeed buf) := by
  have hLit : equalsIgnoreCase "OFF" "OFF" = true := by decide
  rw [prepareVoltasSignalDepth, prepareVoltasSignal]
  by_cases hOff : equalsIgnoreCase power "OFF" = true
  · simp only [hOff, if_true, dite_true]
  · by_cases hOn : equalsIgnoreCase power "ON" = true
    · rw [if_neg hOff, if_pos hOn, dif_neg hOff, if_pos hOn]
    · rw [if_neg hOff, if_neg hOn, dif_neg hOff, if_neg hOn, prepareVoltasSignalDepth,
        prepareVoltasSignal]
      simp only [hLit, if_true, dite_true]

/-- With a budget of two activations `generate_ac_commandDepth` returns what
`generate_ac_command` returns. -/
theorem generate_ac_commandDepth_two (d : Nat)
    (power_status mode_choice temp_value fan_speed_choice : Int) (buf : Buffer) :
    generate_ac_commandDepth (d + 2) power_status mode_choice temp_value fan_speed_choice buf
      = some (generate_ac_command power_status mode_choice temp_value fan_speed_choice buf) := by
  rw [generate_ac_commandDepth, generate_ac_command]
  by_cases hOff : power_status = 0
  · rw [if_pos hOff, dif_pos hOff]
  rw [if_neg hOff, dif_neg hOff]
  by_cases hm1 : mode_choice = 1
  · simp only [hm1, if_true]
  by_cases hm2 : mode_choice = 2
  · simp only [hm2, if_true]
    rfl
  by_cases hm3 : mode_choice = 3
  · simp only [hm3, if_true]
    rfl
  by_cases hm4 : mode_choice = 4
  · simp only [hm4, if_true]
    rfl
  simp only [hm1, hm2, hm3, hm4, if_false]
  rw [generate_ac_commandDepth, generate_ac_command]
  simp only [if_true, dite_true]

/-- C11: the encoders are total and make their fail-soft self-call at most
once. For every input, a budget of two activations (the top-level call and one
nested call) is enough for `prepareVoltasSignal` and for `generate_ac_command`
to return a signal, the one the total functions compute; the nested call, made
with "OFF" (with power 0 in the console), returns within a single activation,
so it does not call itself again. A budget of one activation is not enough
when the self-call is made (empty power string, console mode 0). -/
theorem total_with_one_self_call (d : Nat) (power mode : String) (temp : Int)
    (fanSpeed : String) (power_status mode_choice temp_value fan_speed_choice : Int)
    (buf : Buffer) :
    prepareVoltasSignalDepth (d + 2) power mode temp fanSpeed buf
      = some (prepareVoltasSignal power mode temp fanSpeed buf) ∧
    prepareVoltasSignalDepth 1 "OFF" "" 0 "" buf
      = some (prepareVoltasSignal "OFF" "" 0 "" buf) ∧
    generate_ac_commandDepth (d + 2) power_status mode_choice temp_value fan_speed_choice buf
      = some (generate_ac_command power_status mode_choice temp_value fan_speed_choice buf) ∧
    generate_ac_commandDepth 1 0 0 0 0 buf = some (generate_ac_command 0 0 0 0 buf) ∧
    prepareVoltasSignalDepth 1 "" mode temp fanSpeed buf = none ∧
    generate_ac_commandDepth 1 1 0 temp_value fan_speed_choice buf = none := by
  have hLit : equalsIgnoreCase "OFF" "OFF" = true := by decide
  refine ⟨prepareVoltasSignalDepth_two d power mode temp fanSpeed buf, ?_,
    generate_ac_commandDepth_two d power_status mode_choice temp_value fan_speed_choice buf,
    ?_, rfl, rfl⟩
  · rw [prepareVoltasSignalDepth, prepareVoltasSignal]
    simp only [hLit, if_true, dite_true]
  · rw [generate_ac_commandDepth, generate_ac_command]
    simp only [if_true, dite_true]

/-! ## The rows of the two encoders -/

/-- Byte 9 of a temperature row: the narrowed difference is the exact difference
whenever the constant lies between 30 and 271. -/
theorem toU8_sub_clamp (K T : Int) (h0 : 30 ≤ K) (h1 : K ≤ 271) :
    toU8 (K - max 16 (min T 30)) = (K - max 16 (min T 30)).toNat := by
  have hr := clamp_range T
  exact toU8_of_fits _ (by omega) (by omega)

/-- The signal of `prepareVoltasSignal` for a power string that reads ON, row by
row, with `t` the temperature clamped into [16, 30]. -/
theorem prepareVoltasSignal_on (power mode : String) (temp : Int) (fanSpeed : String)
    (buf : Buffer) (hOn : equalsIgnoreCase power "ON" = true) :
    bytes (prepareVoltasSignal power mode temp fanSpeed buf) =
      if equalsIgnoreCase mode "COOL" = true then
        if equalsIgnoreCase fanSpeed "LOW" = true then
          [0x33, 0x88, 0x80, (max 16 (min temp 30)).toNat, 0x3B, 0x3B, 0x3B, 0x11, 0x20,
            (0xE2 - max 16 (min temp 30)).toNat]
        else if equalsIgnoreCase fanSpeed "MEDIUM" = true then
          [0x33, 0x48, 0x80, (max 16 (min temp 30)).toNat, 0x3B, 0x3B, 0x3B, 0x11, 0x20,
            (0x22 - max 16 (min temp 30)).toNat]
        else if equalsIgnoreCase fanSpeed "HIGH" = true then
          [0x33, 0x28, 0x80, (max 16 (min temp 30)).toNat, 0x3B, 0x3B, 0x3B, 0x11, 0x20,
            (0x42 - max 16 (min temp 30)).toNat]
        else if equalsIgnoreCase fanSpeed "AUTO" = true then
          [0x33, 0xE8, 0x80, (max 16 (min temp 30)).toNat, 0x3B, 0x3B, 0x3B, 0x11, 0x20,
            (0x82 - max 16 (min temp 30)).toNat]
        else
          [0x33, 0x28, 0x88, (max 16 (min temp 30)).toNat, 0x3B, 0x3B, 0x3B, 0x11, 0x20,
            (0x3A - max 16 (min temp 30)).toNat]
      else if equalsIgnoreCase mode "HEAT" = true then
        [0x33, 0x22, 0x88, (max 16 (min temp 30)).toNat, 0x3B, 0x3B, 0x3B, 0x11, 0x20,
          (0x40 - max 16 (min temp 30)).toNat]
      else if equalsIgnoreCase mode "DRY" = true then
        [0x33, 0x84, 0x88, 0x18, 0x3B, 0x3B, 0x3B, 0x11, 0x20, 0xC6]
      else if equalsIgnoreCase mode "FAN" = true then
        [0x33, 0x41, 0x88, 0x10, 0x3B, 0x3B, 0x3B, 0x11, 0x20, 0x11]
      else
        [0x33, 0x28, 0x88, (max 16 (min temp 30)).toNat, 0x3B, 0x3B, 0x3B, 0x11, 0x20,
          (0x3A - max 16 (min temp 30)).toNat] := by
  have hNotOff : equalsIgnoreCase power "OFF" = false :=
    equalsIgnoreCase_exclusive power "ON" "OFF" hOn (by decide)
  have hr := clamp_range temp
  have hc := toU8_clamp_cast temp
  have hu : toU8 (max 16 (min temp 30)) = (max 16 (min temp 30)).toNat :=
    toU8_of_fits _ (by omega) (by omega)
  have k1 := toU8_sub_clamp 0xE2 temp (by decide) (by decide)
  have k2 := toU8_sub_clamp 0x22 temp (by decide) (by decide)
  have k3 := toU8_sub_clamp 0x42 temp (by decide) (by decide)
  have k4 := toU8_sub_clamp 0x82 temp (by decide) (by decide)
  have k5 := toU8_sub_clamp 0x3A temp (by decide) (by decide)
  have k6 := toU8_sub_clamp 0x40 temp (by decide) (by decide)
  have c1 : toU8 51 = 51 := by decide
  have c2 : toU8 59 = 59 := by decide
  have c3 : toU8 17 = 17 := by decide
  have c4 : toU8 32 = 32 := by decide
  by_cases hCool : equalsIgnoreCase mode "COOL" = true
  · by_cases hL : equalsIgnoreCase fanSpeed "LOW" = true
    · rw [prepareVoltasSignal]
      simp [hNotOff, hOn, hCool, hL, clamp_server, hc, bytes, stores, store, hu, k1,
        c1, c2, c3, c4]
      decide
    by_cases hM : equalsIgnoreCase fanSpeed "MEDIUM" = true
    · rw [prepareVoltasSignal]
      simp [hNotOff, hOn, hCool, hL, hM, clamp_server, hc, bytes, stores, store, hu, k2,
        c1, c2, c3, c4]
      decide
    by_cases hH : equalsIgnoreCase fanSpeed "HIGH" = true
    · rw [prepareVoltasSignal]
      simp [hNotOff, hOn, hCool, hL, hM, hH, clamp_server, hc, bytes, stores, store, hu, k3,
        c1, c2, c3, c4]
      decide
    by_cases hA : equalsIgnoreCase fanSpeed "AUTO" = true
    · rw [prepareVoltasSignal]
      simp [hNotOff, hOn, hCool, hL, hM, hH, hA, clamp_server, hc, bytes, stores, store, hu,
        k4, c1, c2, c3, c4]
      decide
    · rw [prepareVoltasSignal]
      simp [hNotOff, hOn, hCool, hL, hM, hH, hA, clamp_server, hc, bytes, stores, store, hu,
        k5, c1, c2, c3, c4]
      decide
  by_cases hHeat : equalsIgnoreCase mode "HEAT" = true
  · rw [prepareVoltasSignal]
    simp [hNotOff, hOn, hCool, hHeat, clamp_server, hc, bytes, stores, store, hu, k6,
      c1, c2, c3, c4]
    decide
  by_cases hDry : equalsIgnoreCase mode "DRY" = true
  · rw [prepareVoltasSignal]
    simp [hNotOff, hOn, hCool, hHeat, hDry, bytes, stores, store, c1, c2, c3, c4]
    decide
  by_cases hFanMode : equalsIgnoreCase mode "FAN" = true
  · rw [prepareVoltasSignal]
    simp [hNotOff, hOn, hCool, hHeat, hDry, hFanMode, bytes, stores, store, c1, c2, c3, c4]
    decide
  · rw [prepareVoltasSignal]
    simp [hNotOff, hOn, hCool, hHeat, hDry, hFanMode, clamp_server, hc, bytes, stores, store,
      hu, k5, c1, c2, c3, c4]
    decide

/-- The signal of `generate_ac_command` for a non-zero `power_status`, row by
row, with `t` the temperature clamped into [16, 30]; a mode outside 1..4 ends in
the OFF sequence. -/
theorem generate_ac_command_on (power_status mode_choice temp_value fan_speed_choice : Int)
    (buf : Buffer) (hOn : power_status ≠ 0) :
    bytes (generate_ac_command power_status mode_choice temp_value fan_speed_choice buf) =
      if mode_choice = 1 then
        if fan_speed_choice = 1 then
          [0x33, 0x88, 0x80, (max 16 (min temp_value 30)).toNat, 0x3B, 0x3B, 0x3B, 0x11, 0x20,
            (0xE2 - max 16 (min temp_value 30)).toNat]
        else if fan_speed_choice = 2 then
          [0x33, 0x48, 0x80, (max 16 (min temp_value 30)).toNat, 0x3B, 0x3B, 0x3B, 0x11, 0x20,
            (0x22 - max 16 (min temp_value 30)).toNat]
        else if fan_speed_choice = 3 then
          [0x33, 0x28, 0x80, (max 16 (min temp_value 30)).toNat, 0x3B, 0x3B, 0x3B, 0x11, 0x20,
            (0x42 - max 16 (min temp_value 30)).toNat]
        else if fan_speed_choice = 4 then
          [0x33, 0xE8, 0x80, (max 16 (min temp_value 30)).toNat, 0x3B, 0x3B, 0x3B, 0x11, 0x20,
            (0x82 - max 16 (min temp_value 30)).toNat]
        else
          [0x33, 0x28, 0x88, (max 16 (min temp_value 30)).toNat, 0x3B, 0x3B, 0x3B, 0x11, 0x20,
            (0x3A - max 16 (min temp_value 30)).toNat]
      else if mode_choice = 2 then
        [0x33, 0x84, 0x88, 0x18, 0x3B, 0x3B, 0x3B, 0x11, 0x20, 0xC6]
      else if mode_choice = 3 then
        [0x33, 0x22, 0x88, (max 16 (min temp_value 30)).toNat, 0x3B, 0x3B, 0x3B, 0x11, 0x20,
          (0x40 - max 16 (min temp_value 30)).toNat]
      else if mode_choice = 4 then
        [0x33, 0x41, 0x88, 0x10, 0x3B, 0x3B, 0x3B, 0x11, 0x20, 0x11]
      else
        [0x33, 0x28, 0x08, 0x18, 0x3B, 0x3B, 0x3B, 0x11, 0x20, 0xA2] := by
  have hr := clamp_range temp_value
  have hu : toU8 (max 16 (min temp_value 30)) = (max 16 (min temp_value 30)).toNat :=
    toU8_of_fits _ (by omega) (by omega)
  have k1 := toU8_sub_clamp 0xE2 temp_value (by decide) (by decide)
  have k2 := toU8_sub_clamp 0x22 temp_value (by decide) (by decide)
  have k3 := toU8_sub_clamp 0x42 temp_value (by decide) (by decide)
  have k4 := toU8_sub_clamp 0x82 temp_value (by decide) (by decide)
  have k5 := toU8_sub_clamp 0x3A temp_value (by decide) (by decide)
  have k6 := toU8_sub_clamp 0x40 temp_value (by decide) (by decide)
  have c1 : toU8 51 = 51 := by decide
  have c2 : toU8 59 = 59 := by decide
  have c3 : toU8 17 = 17 := by decide
  have c4 : toU8 32 = 32 := by decide
  by_cases hm1 : mode_choice = 1
  · by_cases hf1 : fan_speed_choice = 1
    · rw [generate_ac_command]
      simp [hOn, hm1, hf1, clamp_console, bytes, stores, store, hu, k1, c1, c2, c3, c4]
      decide
    by_cases hf2 : fan_speed_choice = 2
    · rw [generate_ac_command]
      simp [hOn, hm1, hf2, clamp_console, bytes, stores, store, hu, k2, c1, c2, c3, c4]
      decide
    by_cases hf3 : fan_speed_choice = 3
    · rw [generate_ac_command]
      simp [hOn, hm1, hf3, clamp_console, bytes, stores, store, hu, k3, c1, c2, c3, c4]
      decide
    by_cases hf4 : fan_speed_choice = 4
    · rw [generate_ac_command]
      simp [hOn, hm1, hf4, clamp_console, bytes, stores, store, hu, k4, c1, c2, c3, c4]
      decide
    · rw [generate_ac_command]
      simp [hOn, hm1, hf1, hf2, hf3, hf4, clamp_console, bytes, stores, store, hu, k5,
        c1, c2, c3, c4]
      decide
  by_cases hm2 : mode_choice = 2
  · rw [generate_ac_command]
    simp [hOn, hm2, bytes, stores, store, c1, c2, c3, c4]
    decide
  by_cases hm3 : mode_choice = 3
  · rw [generate_ac_command]
    simp [hOn, hm3, clamp_console, bytes, stores, store, hu, k6, c1, c2, c3, c4]
    decide
  by_cases hm4 : mode_choice = 4
  · rw [generate_ac_command]
    simp [hOn, hm4, bytes, stores, store, c1, c2, c3, c4]
    decide
  · rw [generate_ac_command, dif_neg hOn]
    simp only [hm1, hm2, hm3, hm4, if_false]
    rw [generate_ac_command, dif_pos rfl]
    exact bytes_stores_off _

/-- The cells behind a listing of the buffer. -/
theorem cells_of_bytes (s : Buffer) (a0 a1 a2 a3 a4 a5 a6 a7 a8 a9 : Nat)
    (h : bytes s = [a0, a1, a2, a3, a4, a5, a6, a7, a8, a9]) :
    s 0 = a0 ∧ s 1 = a1 ∧ s 2 = a2 ∧ s 3 = a3 ∧ s 4 = a4 ∧ s 5 = a5 ∧ s 6 = a6 ∧
      s 7 = a7 ∧ s 8 = a8 ∧ s 9 = a9 := by
  simpa [bytes] using h

/-- A string that reads as a keyword answers every comparison as the keyword does. -/
theorem equalsIgnoreCase_as_keyword (s kw : String) (h : equalsIgnoreCase s kw = true)
    (k : String) : equalsIgnoreCase s k = equalsIgnoreCase kw k :=
  equalsIgnoreCase_congr s kw k ((equalsIgnoreCase_iff s kw).1 h)

/-- C12: on recognized inputs the two encoders agree. Under the correspondence
ON/OFF = 1/0, COOL/DRY/HEAT/FAN = 1/2/3/4 and NONE/LOW/MEDIUM/HIGH/AUTO =
0/1/2/3/4, with the strings read ignoring case, `prepareVoltasSignal` and
`generate_ac_command` leave the same ten bytes for every integer temperature. -/
theorem encoders_agree_on_recognized (power mode : String) (temp : Int) (fanSpeed : String)
    (buf : Buffer) (powerKw modeKw fanKw : String) (power_status mode_choice fan_speed_choice : Int)
    (hP : (powerKw, power_status) ∈ [("ON", 1), ("OFF", 0)])
    (hM : (modeKw, mode_choice) ∈ [("COOL", 1), ("DRY", 2), ("HEAT", 3), ("FAN", 4)])
    (hF : (fanKw, fan_speed_choice) ∈
      [("NONE", 0), ("LOW", 1), ("MEDIUM", 2), ("HIGH", 3), ("AUTO", 4)])
    (hPower : equalsIgnoreCase power powerKw = true)
    (hMode : equalsIgnoreCase mode modeKw = true)
    (hFan : equalsIgnoreCase fanSpeed fanKw = true) :
    bytes (prepareVoltasSignal power mode temp fanSpeed buf)
      = bytes (generate_ac_command power_status mode_choice temp fan_speed_choice buf) := by
  have eM := equalsIgnoreCase_as_keyword mode modeKw hMode
  have eF := equalsIgnoreCase_as_keyword fanSpeed fanKw hFan
  simp only [List.mem_cons, Prod.mk.injEq, List.mem_singleton, List.not_mem_nil,
    or_false] at hP hM hF
  rcases hP with ⟨rfl, rfl⟩ | ⟨rfl, rfl⟩
  · rw [prepareVoltasSignal_on power mode temp fanSpeed buf hPower,
      generate_ac_command_on 1 mode_choice temp fan_speed_choice buf (by decide)]
    rcases hM with ⟨rfl, rfl⟩ | ⟨rfl, rfl⟩ | ⟨rfl, rfl⟩ | ⟨rfl, rfl⟩ <;>
    rcases hF with ⟨rfl, rfl⟩ | ⟨rfl, rfl⟩ | ⟨rfl, rfl⟩ | ⟨rfl, rfl⟩ | ⟨rfl, rfl⟩ <;>
    simp +decide [eM, eF]
  · rw [prepareVoltasSignal, dif_pos hPower, generate_ac_command, dif_pos rfl]

theorem encoders_agree_on_recognized_witness :
    (("ON", 1) : String × Int) ∈ [("ON", 1), ("OFF", 0)] ∧
    (("HEAT", 3) : String × Int) ∈ [("COOL", 1), ("DRY", 2), ("HEAT", 3), ("FAN", 4)] ∧
    (("HIGH", 3) : String × Int) ∈
      [("NONE", 0), ("LOW", 1), ("MEDIUM", 2), ("HIGH", 3), ("AUTO", 4)] ∧
    equalsIgnoreCase "on" "ON" = true ∧ equalsIgnoreCase "Heat" "HEAT" = true ∧
    equalsIgnoreCase "high" "HIGH" = true ∧
    bytes (prepareVoltasSignal "on" "Heat" 21 "high" (fun _ => 0))
      = bytes (generate_ac_command 1 3 21 3 (fun _ => 0)) :=
  ⟨by simp, by simp, by simp, by decide, by decide, by decide,
   encoders_agree_on_recognized "on" "Heat" 21 "high" (fun _ => 0) "ON" "HEAT" "HIGH" 1 3 3
     (by simp) (by simp) (by simp) (by decide) (by decide) (by decide)⟩

/-- C13, counterexample: for power ON, mode COOL and the default fan (choice 0)
at 24 degrees `generate_ac_command` writes byte 1 = 0x28 and byte 2 = 0x88; it
does not write them in the reversed positions. -/
theorem console_default_fan_not_reversed :
    bytes (generate_ac_command 1 1 24 0 (fun _ => 0))
      = [0x33, 0x28, 0x88, 0x18, 0x3B, 0x3B, 0x3B, 0x11, 0x20, 0x22] ∧
    ¬ (generate_ac_command 1 1 24 0 (fun _ => 0) 1 = 0x88 ∧
       generate_ac_command 1 1 24 0 (fun _ => 0) 2 = 0x28) := by
  have h := generate_ac_command_on 1 1 24 0 (fun _ => 0) (by decide)
  have hb : bytes (generate_ac_command 1 1 24 0 (fun _ => 0))
      = [0x33, 0x28, 0x88, 0x18, 0x3B, 0x3B, 0x3B, 0x11, 0x20, 0x22] := by
    rw [h]
    decide
  refine ⟨hb, ?_⟩
  have hc := cells_of_bytes _ _ _ _ _ _ _ _ _ _ _ hb
  rw [hc.2.1, hc.2.2.1]
  decide

/-- C13, amended: for power ON, mode COOL and no explicit fan speed the two
encoders do not diverge: `prepareVoltasSignal` and `generate_ac_command` (fan
choice 0 or unexpected) both write byte 1 = 0x28 and byte 2 = 0x88, and their
ten bytes agree. -/
theorem default_fan_same_byte_order (power mode : String) (temp : Int) (fanSpeed : String)
    (fan_speed_choice : Int) (buf : Buffer)
    (hOn : equalsIgnoreCase power "ON" = true)
    (hCool : equalsIgnoreCase mode "COOL" = true)
    (hFan : ∀ kw ∈ ["LOW", "MEDIUM", "HIGH", "AUTO"], equalsIgnoreCase fanSpeed kw = false)
    (hChoice : fan_speed_choice ∉ [1, 2, 3, 4]) :
    prepareVoltasSignal power mode temp fanSpeed buf 1 = 0x28 ∧
    prepareVoltasSignal power mode temp fanSpeed buf 2 = 0x88 ∧
    generate_ac_command 1 1 temp fan_speed_choice buf 1 = 0x28 ∧
    generate_ac_command 1 1 temp fan_speed_choice buf 2 = 0x88 ∧
    bytes (prepareVoltasSignal power mode temp fanSpeed buf)
      = bytes (generate_ac_command 1 1 temp fan_speed_choice buf) := by
  have h1 := hFan "LOW" (by simp)
  have h2 := hFan "MEDIUM" (by simp)
  have h3 := hFan "HIGH" (by simp)
  have h4 := hFan "AUTO" (by simp)
  simp only [List.mem_cons, List.mem_singleton, List.not_mem_nil, or_false, not_or] at hChoice
  obtain ⟨c1, c2, c3, c4⟩ := hChoice
  have hS := prepareVoltasSignal_on power mode temp fanSpeed buf hOn
  have hC := generate_ac_command_on 1 1 temp fan_speed_choice buf (by decide)
  simp [hCool, h1, h2, h3, h4] at hS
  simp [c1, c2, c3, c4] at hC
  have cS := cells_of_bytes _ _ _ _ _ _ _ _ _ _ _ hS
  have cC := cells_of_bytes _ _ _ _ _ _ _ _ _ _ _ hC
  exact ⟨cS.2.1, cS.2.2.1, cC.2.1, cC.2.2.1, by rw [hS, hC]⟩

theorem default_fan_same_byte_order_witness :
    equalsIgnoreCase "ON" "ON" = true ∧ equalsIgnoreCase "COOL" "COOL" = true ∧
    (∀ kw ∈ ["LOW", "MEDIUM", "HIGH", "AUTO"], equalsIgnoreCase "NONE" kw = false) ∧
    (7 : Int) ∉ [1, 2, 3, 4] ∧
    prepareVoltasSignal "ON" "COOL" 24 "NONE" (fun _ => 0) 1 = 0x28 ∧
    prepareVoltasSignal "ON" "COOL" 24 "NONE" (fun _ => 0) 2 = 0x88 ∧
    generate_ac_command 1 1 24 7 (fun _ => 0) 1 = 0x28 ∧
    generate_ac_command 1 1 24 7 (fun _ => 0) 2 = 0x88 ∧
    bytes (prepareVoltasSignal "ON" "COOL" 24 "NONE" (fun _ => 0))
      = bytes (generate_ac_command 1 1 24 7 (fun _ => 0)) :=
  ⟨by decide, by decide, by decide, by decide,
   default_fan_same_byte_order "ON" "COOL" 24 "NONE" 7 (fun _ => 0)
     (by decide) (by decide) (by decide) (by decide)⟩

/-- C14: in the console variant an invalid mode turns the device off: for every
`power_status` other than 0, every `mode_choice` outside 1..4, every temperature
and fan choice, `generate_ac_command` leaves the OFF sequence, whose byte 2 is
0x08 and not the 0x88 of the COOL/DEFAULT row. -/
theorem console_invalid_mode_is_off (power_status mode_choice temp_value fan_speed_choice : Int)
    (buf : Buffer) (hOn : power_status ≠ 0) (hMode : mode_choice ∉ [1, 2, 3, 4]) :
    bytes (generate_ac_command power_status mode_choice temp_value fan_speed_choice buf)
      = [0x33, 0x28, 0x08, 0x18, 0x3B, 0x3B, 0x3B, 0x11, 0x20, 0xA2] ∧
    generate_ac_command power_status mode_choice temp_value fan_speed_choice buf 2 ≠ 0x88 := by
  simp only [List.mem_cons, List.mem_singleton, List.not_mem_nil, or_false, not_or] at hMode
  obtain ⟨m1, m2, m3, m4⟩ := hMode
  have h := generate_ac_command_on power_status mode_choice temp_value fan_speed_choice buf hOn
  simp only [m1, m2, m3, m4, if_false] at h
  refine ⟨h, ?_⟩
  rw [(cells_of_bytes _ _ _ _ _ _ _ _ _ _ _ h).2.2.1]
  decide

theorem console_invalid_mode_is_off_witness :
    (1 : Int) ≠ 0 ∧ (9 : Int) ∉ [1, 2, 3, 4] ∧
    bytes (generate_ac_command 1 9 24 2 (fun _ => 0))
      = [0x33, 0x28, 0x08, 0x18, 0x3B, 0x3B, 0x3B, 0x11, 0x20, 0xA2] ∧
    generate_ac_command 1 9 24 2 (fun _ => 0) 2 ≠ 0x88 :=
  ⟨by decide, by decide,
   console_invalid_mode_is_off 1 9 24 2 (fun _ => 0) (by decide) (by decide)⟩

/-- C15, counterexample: `generate_ac_command` with `power_status = 2` and mode
COOL at 24 degrees does not yield the OFF sequence; it yields the COOL/DEFAULT
signal, as for `power_status = 1`. -/
theorem console_power_two_is_on :
    bytes (generate_ac_command 2 1 24 0 (fun _ => 0))
      = [0x33, 0x28, 0x88, 0x18, 0x3B, 0x3B, 0x3B, 0x11, 0x20, 0x22] ∧
    bytes (generate_ac_command 2 1 24 0 (fun _ => 0))
      ≠ [0x33, 0x28, 0x08, 0x18, 0x3B, 0x3B, 0x3B, 0x11, 0x20, 0xA2] := by
  have h := generate_ac_command_on 2 1 24 0 (fun _ => 0) (by decide)
  have hb : bytes (generate_ac_command 2 1 24 0 (fun _ => 0))
      = [0x33, 0x28, 0x88, 0x18, 0x3B, 0x3B, 0x3B, 0x11, 0x20, 0x22] := by
    rw [h]
    decide
  refine ⟨hb, ?_⟩
  rw [hb]
  decide

/-- C15, amended: in the console variant `generate_ac_command` yields the OFF
sequence for `power_status = 0`, whatever the mode, temperature and fan choice;
every non-zero `power_status` (2 and -1 as well as 1) is handled exactly as 1,
so with a mode in 1..4 the result is the ON signal of that mode and not the OFF
sequence. -/
theorem console_power_gate (power_status mode_choice temp_value fan_speed_choice : Int)
    (buf : Buffer) (hNonZero : power_status ≠ 0) :
    bytes (generate_ac_command 0 mode_choice temp_value fan_speed_choice buf)
      = [0x33, 0x28, 0x08, 0x18, 0x3B, 0x3B, 0x3B, 0x11, 0x20, 0xA2] ∧
    generate_ac_command power_status mode_choice temp_value fan_speed_choice buf
      = generate_ac_command 1 mode_choice temp_value fan_speed_choice buf ∧
    (mode_choice ∈ [1, 2, 3, 4] →
      bytes (generate_ac_command power_status mode_choice temp_value fan_speed_choice buf)
        ≠ [0x33, 0x28, 0x08, 0x18, 0x3B, 0x3B, 0x3B, 0x11, 0x20, 0xA2]) := by
  refine ⟨?_, ?_, ?_⟩
  · rw [generate_ac_command, dif_pos rfl]
    exact bytes_stores_off buf
  · conv_lhs => rw [generate_ac_command, dif_neg hNonZero]
    conv_rhs => rw [generate_ac_command, dif_neg (by decide)]
  · intro hMode hEq
    rw [generate_ac_command_on power_status mode_choice temp_value fan_speed_choice buf
      hNonZero] at hEq
    simp only [List.mem_cons, List.mem_singleton, List.not_mem_nil, or_false] at hMode
    rcases hMode with rfl | rfl | rfl | rfl
    · rw [if_pos rfl] at hEq
      split_ifs at hEq <;> simp at hEq
    · simp at hEq
    · simp at hEq
    · simp at hEq

theorem console_power_gate_witness :
    (2 : Int) ≠ 0 ∧
    bytes (generate_ac_command 0 3 20 1 (fun _ => 0))
      = [0x33, 0x28, 0x08, 0x18, 0x3B, 0x3B, 0x3B, 0x11, 0x20, 0xA2] ∧
    generate_ac_command 2 3 20 1 (fun _ => 0) = generate_ac_command 1 3 20 1 (fun _ => 0) ∧
    ((3 : Int) ∈ [1, 2, 3, 4] →
      bytes (generate_ac_command 2 3 20 1 (fun _ => 0))
        ≠ [0x33, 0x28, 0x08, 0x18, 0x3B, 0x3B, 0x3B, 0x11, 0x20, 0xA2]) :=
  ⟨by decide, console_power_gate 2 3 20 1 (fun _ => 0) (by decide)⟩

/-- Clamping twice is clamping once. -/
theorem clamp_idem (T : Int) : max 16 (min (max 16 (min T 30)) 30) = max 16 (min T 30) := by
  have h := clamp_range T
  omega

/-- The network encoder uses the temperature only through its clamp. -/
theorem prepareVoltasSignal_clamp (power mode : String) (temp : Int) (fanSpeed : String)
    (buf : Buffer) :
    prepareVoltasSignal power mode temp fanSpeed buf
      = prepareVoltasSignal power mode (max 16 (min temp 30)) fanSpeed buf := by
  conv_lhs => rw [prepareVoltasSignal]
  conv_rhs => rw [prepareVoltasSignal]
  simp only [clamp_server, clamp_idem]

/-- The console encoder uses the temperature only through its clamp. -/
theorem generate_ac_command_clamp (power_status mode_choice temp_value fan_speed_choice : Int)
    (buf : Buffer) :
    generate_ac_command power_status mode_choice temp_value fan_speed_choice buf
      = generate_ac_command power_status mode_choice (max 16 (min temp_value 30))
          fan_speed_choice buf := by
  conv_lhs => rw [generate_ac_command]
  conv_rhs => rw [generate_ac_command]
  simp only [clamp_console, clamp_idem]

/-- Byte 3 of the network encoder in the COOL and HEAT rows. -/
theorem prepareVoltasSignal_byte3 (power mode : String) (temp : Int) (fanSpeed : String)
    (buf : Buffer) (hOn : equalsIgnoreCase power "ON" = true)
    (hMode : equalsIgnoreCase mode "COOL" = true ∨ equalsIgnoreCase mode "HEAT" = true) :
    prepareVoltasSignal power mode temp fanSpeed buf 3 = (max 16 (min temp 30)).toNat := by
  have h := prepareVoltasSignal_on power mode temp fanSpeed buf hOn
  rcases hMode with hCool | hHeat
  · rw [if_pos hCool] at h
    split_ifs at h <;> exact (cells_of_bytes _ _ _ _ _ _ _ _ _ _ _ h).2.2.2.1
  · have hNotCool : equalsIgnoreCase mode "COOL" = false :=
      equalsIgnoreCase_exclusive mode "HEAT" "COOL" hHeat (by decide)
    rw [if_neg (by simp [hNotCool]), if_pos hHeat] at h
    exact (cells_of_bytes _ _ _ _ _ _ _ _ _ _ _ h).2.2.2.1

/-- Byte 3 of the console encoder in the Cold and Sun rows. -/
theorem generate_ac_command_byte3 (power_status mode_choice temp_value fan_speed_choice : Int)
    (buf : Buffer) (hOn : power_status ≠ 0) (hMode : mode_choice = 1 ∨ mode_choice = 3) :
    generate_ac_command power_status mode_choice temp_value fan_speed_choice buf 3
      = (max 16 (min temp_value 30)).toNat := by
  have h := generate_ac_command_on power_status mode_choice temp_value fan_speed_choice buf hOn
  rcases hMode with rfl | rfl
  · rw [if_pos rfl] at h
    split_ifs at h <;> exact (cells_of_bytes _ _ _ _ _ _ _ _ _ _ _ h).2.2.2.1
  · rw [if_neg (by decide), if_neg (by decide), if_pos rfl] at h
    exact (cells_of_bytes _ _ _ _ _ _ _ _ _ _ _ h).2.2.2.1

/-- C16, counterexample: byte 3 can equal T mod 256 for an out-of-range T. At
T = 286, above 30, both encoders store 30 in byte 3, and 286 mod 256 is 30. -/
theorem byte3_can_equal_residue :
    (30 : Int) < 286 ∧ toU8 286 = 30 ∧
    prepareVoltasSignal "ON" "COOL" 286 "NONE" (fun _ => 0) 3 = toU8 286 ∧
    generate_ac_command 1 1 286 0 (fun _ => 0) 3 = toU8 286 := by
  refine ⟨by decide, by decide, ?_, ?_⟩
  · rw [prepareVoltasSignal_byte3 "ON" "COOL" 286 "NONE" (fun _ => 0) (by decide)
      (Or.inl (by decide))]
    decide
  · rw [generate_ac_command_byte3 1 1 286 0 (fun _ => 0) (by decide) (Or.inl rfl)]
    decide

/-- C16, amended: the temperature is clamped before it is narrowed to a byte.
For power ON in COOL or HEAT mode and every integer temperature T, negative or
beyond 255 included, byte 3 is 16 when T < 16, 30 when T > 30 and T itself
otherwise, so it lies in [16, 30]; it is the clamp of T and not T mod 256: for
an out-of-range T the two coincide only when T mod 256 is itself the bound (16
below the range, 30 above it), and 280 gives 30, not 24. Encoding T and encoding
the clamp of T give the same signal. Stated for both encoders. -/
theorem clamp_before_narrowing (power mode : String) (temp : Int) (fanSpeed : String)
    (mode_choice fan_speed_choice : Int) (buf : Buffer)
    (hOn : equalsIgnoreCase power "ON" = true)
    (hMode : equalsIgnoreCase mode "COOL" = true ∨ equalsIgnoreCase mode "HEAT" = true)
    (hChoice : mode_choice = 1 ∨ mode_choice = 3) :
    ((temp < 16 → prepareVoltasSignal power mode temp fanSpeed buf 3 = 16) ∧
     (30 < temp → prepareVoltasSignal power mode temp fanSpeed buf 3 = 30) ∧
     (16 ≤ temp → temp ≤ 30 →
        ((prepareVoltasSignal power mode temp fanSpeed buf 3 : Nat) : Int) = temp) ∧
     16 ≤ prepareVoltasSignal power mode temp fanSpeed buf 3 ∧
     prepareVoltasSignal power mode temp fanSpeed buf 3 ≤ 30 ∧
     prepareVoltasSignal power mode 280 fanSpeed buf 3 = 30 ∧
     prepareVoltasSignal power mode temp fanSpeed buf
       = prepareVoltasSignal power mode (max 16 (min temp 30)) fanSpeed buf ∧
     (temp < 16 →
        (prepareVoltasSignal power mode temp fanSpeed buf 3 = toU8 temp ↔ temp % 256 = 16)) ∧
     (30 < temp →
        (prepareVoltasSignal power mode temp fanSpeed buf 3 = toU8 temp ↔ temp % 256 = 30))) ∧
    ((temp < 16 → generate_ac_command 1 mode_choice temp fan_speed_choice buf 3 = 16) ∧
     (30 < temp → generate_ac_command 1 mode_choice temp fan_speed_choice buf 3 = 30) ∧
     (16 ≤ temp → temp ≤ 30 →
        ((generate_ac_command 1 mode_choice temp fan_speed_choice buf 3 : Nat) : Int) = temp) ∧
     16 ≤ generate_ac_command 1 mode_choice temp fan_speed_choice buf 3 ∧
     generate_ac_command 1 mode_choice temp fan_speed_choice buf 3 ≤ 30 ∧
     generate_ac_command 1 mode_choice 280 fan_speed_choice buf 3 = 30 ∧
     generate_ac_command 1 mode_choice temp fan_speed_choice buf
       = generate_ac_command 1 mode_choice (max 16 (min temp 30)) fan_speed_choice buf ∧
     (temp < 16 →
        (generate_ac_command 1 mode_choice temp fan_speed_choice buf 3 = toU8 temp
          ↔ temp % 256 = 16)) ∧
     (30 < temp →
        (generate_ac_command 1 mode_choice temp fan_speed_choice buf 3 = toU8 temp
          ↔ temp % 256 = 30))) := by
  have hS := prepareVoltasSignal_byte3 power mode temp fanSpeed buf hOn hMode
  have hS2 := prepareVoltasSignal_byte3 power mode 280 fanSpeed buf hOn hMode
  have hC := generate_ac_command_byte3 1 mode_choice temp fan_speed_choice buf (by decide) hChoice
  have hC2 := generate_ac_command_byte3 1 mode_choice 280 fan_speed_choice buf (by decide) hChoice
  have hr := clamp_range temp
  refine ⟨⟨?_, ?_, ?_, ?_, ?_, ?_, prepareVoltasSignal_clamp power mode temp fanSpeed buf,
      ?_, ?_⟩,
    ⟨?_, ?_, ?_, ?_, ?_, ?_, generate_ac_command_clamp 1 mode_choice temp fan_speed_choice buf,
      ?_, ?_⟩⟩
  · intro h; rw [hS]; omega
  · intro h; rw [hS]; omega
  · intro h1 h2; rw [hS]; omega
  · rw [hS]; omega
  · rw [hS]; omega
  · rw [hS2]; decide
  · intro h; rw [hS]; unfold toU8; omega
  · intro h; rw [hS]; unfold toU8; omega
  · intro h; rw [hC]; omega
  · intro h; rw [hC]; omega
  · intro h1 h2; rw [hC]; omega
  · rw [hC]; omega
  · rw [hC]; omega
  · rw [hC2]; decide
  · intro h; rw [hC]; unfold toU8; omega
  · intro h; rw [hC]; unfold toU8; omega

theorem clamp_before_narrowing_witness :
    equalsIgnoreCase "ON" "ON" = true ∧
    (equalsIgnoreCase "HEAT" "COOL" = true ∨ equalsIgnoreCase "HEAT" "HEAT" = true) ∧
    ((3 : Int) = 1 ∨ (3 : Int) = 3) ∧
    toU8 280 = 24 ∧
    prepareVoltasSignal "ON" "HEAT" 280 "NONE" (fun _ => 0) 3 = 30 ∧
    generate_ac_command 1 3 280 0 (fun _ => 0) 3 = 30 :=
  ⟨by decide, by decide, by decide, by decide,
   (clamp_before_narrowing "ON" "HEAT" 280 "NONE" 3 0 (fun _ => 0)
      (by decide) (by decide) (by decide)).1.2.1 (by decide),
   (clamp_before_narrowing "ON" "HEAT" 280 "NONE" 3 0 (fun _ => 0)
      (by decide) (by decide) (by decide)).2.2.1 (by decide)⟩

/-- C17: byte 9 never wraps for reachable temperatures. In every
temperature-dependent row (COOL with LOW, MEDIUM, HIGH, AUTO or the default fan,
HEAT, and the unknown-mode fallback of the network handler) the stored byte 9,
read as an integer, is the exact difference K - t of the row's constant and the
clamped temperature t; for each constant K of 0xE2, 0x22, 0x42, 0x82, 0x3A, 0x40
that difference lies in [0, 255], so narrowing to eight bits changes nothing.
HEAT at 16 gives 0x30. Stated for both encoders. -/
theorem byte9_never_wraps (power mode : String) (temp : Int) (fanSpeed : String)
    (fan_speed_choice : Int) (buf : Buffer)
    (hOn : equalsIgnoreCase power "ON" = true) :
    (∀ K ∈ [(0xE2 : Int), 0x22, 0x42, 0x82, 0x3A, 0x40],
        0 ≤ K - max 16 (min temp 30) ∧ K - max 16 (min temp 30) ≤ 255 ∧
        ((toU8 (K - max 16 (min temp 30)) : Nat) : Int) = K - max 16 (min temp 30)) ∧
    (∀ name K, (name, K) ∈ [("LOW", (0xE2 : Int)), ("MEDIUM", 0x22), ("HIGH", 0x42),
          ("AUTO", 0x82)] →
        equalsIgnoreCase mode "COOL" = true → equalsIgnoreCase fanSpeed name = true →
        ((prepareVoltasSignal power mode temp fanSpeed buf 9 : Nat) : Int)
          = K - max 16 (min temp 30)) ∧
    (equalsIgnoreCase mode "COOL" = true →
        (∀ kw ∈ ["LOW", "MEDIUM", "HIGH", "AUTO"], equalsIgnoreCase fanSpeed kw = false) →
        ((prepareVoltasSignal power mode temp fanSpeed buf 9 : Nat) : Int)
          = 0x3A - max 16 (min temp 30)) ∧
    (equalsIgnoreCase mode "HEAT" = true →
        ((prepareVoltasSignal power mode temp fanSpeed buf 9 : Nat) : Int)
          = 0x40 - max 16 (min temp 30)) ∧
    ((∀ kw ∈ ["COOL", "HEAT", "DRY", "FAN"], equalsIgnoreCase mode kw = false) →
        ((prepareVoltasSignal power mode temp fanSpeed buf 9 : Nat) : Int)
          = 0x3A - max 16 (min temp 30)) ∧
    (∀ choice K, (choice, K) ∈ [((1 : Int), (0xE2 : Int)), (2, 0x22), (3, 0x42), (4, 0x82)] →
        ((generate_ac_command 1 1 temp choice buf 9 : Nat) : Int)
          = K - max 16 (min temp 30)) ∧
    (fan_speed_choice ∉ [1, 2, 3, 4] →
        ((generate_ac_command 1 1 temp fan_speed_choice buf 9 : Nat) : Int)
          = 0x3A - max 16 (min temp 30)) ∧
    ((generate_ac_command 1 3 temp fan_speed_choice buf 9 : Nat) : Int)
          = 0x40 - max 16 (min temp 30) ∧
    (equalsIgnoreCase mode "HEAT" = true →
        prepareVoltasSignal power mode 16 fanSpeed buf 9 = 0x30) ∧
    generate_ac_command 1 3 16 fan_speed_choice buf 9 = 0x30 := by
  have hr := clamp_range temp
  have hS := prepareVoltasSignal_on power mode temp fanSpeed buf hOn
  have hC1 := fun c => generate_ac_command_on 1 1 temp c buf (by decide)
  have hC3 := generate_ac_command_on 1 3 temp fan_speed_choice buf (by decide)
  refine ⟨?_, ?_, ?_, ?_, ?_, ?_, ?_, ?_, ?_, ?_⟩
  · intro K hK
    simp only [List.mem_cons, List.mem_singleton, List.not_mem_nil, or_false] at hK
    have h0 : 0 ≤ K - max 16 (min temp 30) := by omega
    have h1 : K - max 16 (min temp 30) ≤ 255 := by omega
    refine ⟨h0, h1, ?_⟩
    rw [toU8_of_fits _ h0 (by omega)]
    exact Int.toNat_of_nonneg h0
  · intro name K hRow hCool hFan
    simp only [List.mem_cons, Prod.mk.injEq, List.mem_singleton, List.not_mem_nil,
      or_false] at hRow
    have eF := equalsIgnoreCase_as_keyword fanSpeed name hFan
    rw [if_pos hCool] at hS
    rcases hRow with ⟨rfl, rfl⟩ | ⟨rfl, rfl⟩ | ⟨rfl, rfl⟩ | ⟨rfl, rfl⟩ <;>
    · simp +decide only [eF, if_true, if_false] at hS
      rw [(cells_of_bytes _ _ _ _ _ _ _ _ _ _ _ hS).2.2.2.2.2.2.2.2.2]
      omega
  · intro hCool hFan
    have h1 := hFan "LOW" (by simp)
    have h2 := hFan "MEDIUM" (by simp)
    have h3 := hFan "HIGH" (by simp)
    have h4 := hFan "AUTO" (by simp)
    simp [hCool, h1, h2, h3, h4] at hS
    rw [(cells_of_bytes _ _ _ _ _ _ _ _ _ _ _ hS).2.2.2.2.2.2.2.2.2]
    omega
  · intro hHeat
    have hNotCool : equalsIgnoreCase mode "COOL" = false :=
      equalsIgnoreCase_exclusive mode "HEAT" "COOL" hHeat (by decide)
    simp [hNotCool, hHeat] at hS
    rw [(cells_of_bytes _ _ _ _ _ _ _ _ _ _ _ hS).2.2.2.2.2.2.2.2.2]
    omega
  · intro hMode
    have m1 := hMode "COOL" (by simp)
    have m2 := hMode "HEAT" (by simp)
    have m3 := hMode "DRY" (by simp)
    have m4 := hMode "FAN" (by simp)
    simp [m1, m2, m3, m4] at hS
    rw [(cells_of_bytes _ _ _ _ _ _ _ _ _ _ _ hS).2.2.2.2.2.2.2.2.2]
    omega
  · intro choice K hRow
    simp only [List.mem_cons, Prod.mk.injEq, List.mem_singleton, List.not_mem_nil,
      or_false] at hRow
    have h := hC1 choice
    rcases hRow with ⟨rfl, rfl⟩ | ⟨rfl, rfl⟩ | ⟨rfl, rfl⟩ | ⟨rfl, rfl⟩ <;>
    · simp +decide only [if_true, if_false] at h
      rw [(cells_of_bytes _ _ _ _ _ _ _ _ _ _ _ h).2.2.2.2.2.2.2.2.2]
      omega
  · intro hChoice
    simp only [List.mem_cons, List.mem_singleton, List.not_mem_nil, or_false, not_or] at hChoice
    obtain ⟨c1, c2, c3, c4⟩ := hChoice
    have h := hC1 fan_speed_choice
    simp [c1, c2, c3, c4] at h
    rw [(cells_of_bytes _ _ _ _ _ _ _ _ _ _ _ h).2.2.2.2.2.2.2.2.2]
    omega
  · simp at hC3
    rw [(cells_of_bytes _ _ _ _ _ _ _ _ _ _ _ hC3).2.2.2.2.2.2.2.2.2]
    omega
  · intro hHeat
    have hNotCool : equalsIgnoreCase mode "COOL" = false :=
      equalsIgnoreCase_exclusive mode "HEAT" "COOL" hHeat (by decide)
    have h := prepareVoltasSignal_on power mode 16 fanSpeed buf hOn
    simp [hNotCool, hHeat] at h
    rw [(cells_of_bytes _ _ _ _ _ _ _ _ _ _ _ h).2.2.2.2.2.2.2.2.2]
  · have h := generate_ac_command_on 1 3 16 fan_speed_choice buf (by decide)
    simp at h
    rw [(cells_of_bytes _ _ _ _ _ _ _ _ _ _ _ h).2.2.2.2.2.2.2.2.2]

theorem byte9_never_wraps_witness :
    equalsIgnoreCase "ON" "ON" = true ∧ equalsIgnoreCase "HEAT" "HEAT" = true ∧
    ((prepareVoltasSignal "ON" "HEAT" 16 "NONE" (fun _ => 0) 9 : Nat) : Int)
      = 0x40 - max 16 (min 16 30) ∧
    prepareVoltasSignal "ON" "HEAT" 16 "NONE" (fun _ => 0) 9 = 0x30 :=
  ⟨by decide, by decide,
   (byte9_never_wraps "ON" "HEAT" 16 "NONE" 0 (fun _ => 0) (by decide)).2.2.2.1 (by decide),
   (byte9_never_wraps "ON" "HEAT" 16 "NONE" 0 (fun _ => 0) (by decide)).2.2.2.2.2.2.2.2.1
     (by decide)⟩

/-- The digit `hexDigit d` is the character at position `d` of the uppercase
hexadecimal digits. -/
theorem hexDigit_spec (d : Nat) (h : d < 16) :
    "0123456789ABCDEF".data[d]? = some (hexDigit d) := by
  interval_cases d <;> decide

/-- C18: the diagnostic rendering of a signal. For every buffer, `print_signal`
of `Signal.cpp` and the print loop of the network handler write, after their own
label and before the end of the line, the same text: an opening brace, the ten
bytes each as "0x" and two uppercase hexadecimal digits (zero-padded), separated
by a comma and a space, and a closing brace right after the last byte; 60
characters in all. -/
theorem diagnostic_rendering (buf : Buffer) :
    print_signal buf
      = "\nGenerated Signal Code:\nsignal[10] = ".data ++ diagnosticFormat (bytes buf)
          ++ "\n".data ∧
    webSocketEvent_print buf
      = "Generated IR Signal: ".data ++ diagnosticFormat (bytes buf) ++ "\r\n".data ∧
    diagnosticFormat (bytes buf)
      = "\x7b0x".data ++ fmt02X (buf 0) ++ ", 0x".data ++ fmt02X (buf 1) ++
        ", 0x".data ++ fmt02X (buf 2) ++ ", 0x".data ++ fmt02X (buf 3) ++
        ", 0x".data ++ fmt02X (buf 4) ++ ", 0x".data ++ fmt02X (buf 5) ++
        ", 0x".data ++ fmt02X (buf 6) ++ ", 0x".data ++ fmt02X (buf 7) ++
        ", 0x".data ++ fmt02X (buf 8) ++ ", 0x".data ++ fmt02X (buf 9) ++ "\x7d".data ∧
    (diagnosticFormat (bytes buf)).length = 60 ∧
    (∀ b : Nat, (fmt02X b).map some
      = ["0123456789ABCDEF".data[b / 16 % 16]?, "0123456789ABCDEF".data[b % 16]?]) ∧
    diagnosticFormat [0x33, 0x28, 0x08, 0x18, 0x3B, 0x3B, 0x3B, 0x11, 0x20, 0xA2]
      = "\x7b0x33, 0x28, 0x08, 0x18, 0x3B, 0x3B, 0x3B, 0x11, 0x20, 0xA2\x7d".data := by
  refine ⟨?_, ?_, ?_, ?_, ?_, ?_⟩
  · simp [print_signal, diagnosticFormat, bytes, List.range, List.range.loop,
      List.intercalate, List.intersperse, Fin.ofNat]
  · simp [webSocketEvent_print, diagnosticFormat, bytes, List.range, List.range.loop,
      List.intercalate, List.intersperse, Fin.ofNat, VOLTAS_CMD_LENGTH]
  · simp [diagnosticFormat, bytes, List.intercalate, List.intersperse]
  · simp [diagnosticFormat, bytes, List.intercalate, List.intersperse, fmt02X]
  · intro b
    simp only [fmt02X, List.map_cons, List.map_nil]
    rw [hexDigit_spec _ (Nat.mod_lt _ (by decide)), hexDigit_spec _ (Nat.mod_lt _ (by decide))]
  · decide

/-- A power string that does not read ON leaves the OFF sequence. -/
theorem prepareVoltasSignal_not_on (power mode : String) (temp : Int) (fanSpeed : String)
    (buf : Buffer) (hNotOn : ¬ equalsIgnoreCase power "ON" = true) :
    bytes (prepareVoltasSignal power mode temp fanSpeed buf)
      = [0x33, 0x28, 0x08, 0x18, 0x3B, 0x3B, 0x3B, 0x11, 0x20, 0xA2] := by
  have hLit : equalsIgnoreCase "OFF" "OFF" = true := by decide
  rw [prepareVoltasSignal]
  by_cases hOff : equalsIgnoreCase power "OFF" = true
  · rw [dif_pos hOff]
    exact bytes_stores_off buf
  · rw [dif_neg hOff, if_neg hNotOn, prepareVoltasSignal, dif_pos hLit]
    exact bytes_stores_off buf

/-- Power 0 leaves the OFF sequence in the console encoder. -/
theorem generate_ac_command_zero (mode_choice temp_value fan_speed_choice : Int)
    (buf : Buffer) :
    bytes (generate_ac_command 0 mode_choice temp_value fan_speed_choice buf)
      = [0x33, 0x28, 0x08, 0x18, 0x3B, 0x3B, 0x3B, 0x11, 0x20, 0xA2] := by
  rw [generate_ac_command, dif_pos rfl]
  exact bytes_stores_off buf

/-- C19: every signal the encoders can produce carries a valid trailing
checksum. For every input (any power, mode, integer temperature and fan value,
the OFF and fallback paths included) the sum of the ten bytes is congruent to
0xFF modulo 256, that is, byte 9 equals 0xFF minus the 8-bit sum of bytes 0 to
8. Stated for both encoders. -/
theorem checksum_valid (power mode : String) (temp : Int) (fanSpeed : String)
    (power_status mode_choice temp_value fan_speed_choice : Int) (buf : Buffer) :
    ((bytes (prepareVoltasSignal power mode temp fanSpeed buf)).sum % 256 = 0xFF ∧
     prepareVoltasSignal power mode temp fanSpeed buf 9
       = 0xFF - ((bytes (prepareVoltasSignal power mode temp fanSpeed buf)).take 9).sum % 256) ∧
    ((bytes (generate_ac_command power_status mode_choice temp_value fan_speed_choice buf)).sum
        % 256 = 0xFF ∧
     generate_ac_command power_status mode_choice temp_value fan_speed_choice buf 9
       = 0xFF - ((bytes (generate_ac_command power_status mode_choice temp_value
           fan_speed_choice buf)).take 9).sum % 256) := by
  have hr := clamp_range temp
  have hr2 := clamp_range temp_value
  constructor
  · by_cases hOn : equalsIgnoreCase power "ON" = true
    · have h := prepareVoltasSignal_on power mode temp fanSpeed buf hOn
      split_ifs at h <;>
      · rw [(cells_of_bytes _ _ _ _ _ _ _ _ _ _ _ h).2.2.2.2.2.2.2.2.2, h]
        simp only [List.sum_cons, List.sum_nil, List.take_succ_cons, List.take_zero]
        omega
    · have h := prepareVoltasSignal_not_on power mode temp fanSpeed buf hOn
      rw [(cells_of_bytes _ _ _ _ _ _ _ _ _ _ _ h).2.2.2.2.2.2.2.2.2, h]
      decide
  · by_cases hOn : power_status = 0
    · subst hOn
      have h := generate_ac_command_zero mode_choice temp_value fan_speed_choice buf
      rw [(cells_of_bytes _ _ _ _ _ _ _ _ _ _ _ h).2.2.2.2.2.2.2.2.2, h]
      decide
    · have h := generate_ac_command_on power_status mode_choice temp_value fan_speed_choice
        buf hOn
      split_ifs at h <;>
      · rw [(cells_of_bytes _ _ _ _ _ _ _ _ _ _ _ h).2.2.2.2.2.2.2.2.2, h]
        simp only [List.sum_cons, List.sum_nil, List.take_succ_cons, List.take_zero]
        omega

/-- The ten bytes the network encoder produces for an intent in range. -/
theorem serverSignal_bytes (i : Intent) (buf : Buffer) :
    bytes (i.serverSignal buf) =
      match i with
      | .OFF => [0x33, 0x28, 0x08, 0x18, 0x3B, 0x3B, 0x3B, 0x11, 0x20, 0xA2]
      | .DRY => [0x33, 0x84, 0x88, 0x18, 0x3B, 0x3B, 0x3B, 0x11, 0x20, 0xC6]
      | .FAN => [0x33, 0x41, 0x88, 0x10, 0x3B, 0x3B, 0x3B, 0x11, 0x20, 0x11]
      | .HEAT t => [0x33, 0x22, 0x88, (max 16 (min t 30)).toNat, 0x3B, 0x3B, 0x3B, 0x11, 0x20,
          (0x40 - max 16 (min t 30)).toNat]
      | .COOL t .LOW => [0x33, 0x88, 0x80, (max 16 (min t 30)).toNat, 0x3B, 0x3B, 0x3B, 0x11,
          0x20, (0xE2 - max 16 (min t 30)).toNat]
      | .COOL t .MEDIUM => [0x33, 0x48, 0x80, (max 16 (min t 30)).toNat, 0x3B, 0x3B, 0x3B, 0x11,
          0x20, (0x22 - max 16 (min t 30)).toNat]
      | .COOL t .HIGH => [0x33, 0x28, 0x80, (max 16 (min t 30)).toNat, 0x3B, 0x3B, 0x3B, 0x11,
          0x20, (0x42 - max 16 (min t 30)).toNat]
      | .COOL t .AUTO => [0x33, 0xE8, 0x80, (max 16 (min t 30)).toNat, 0x3B, 0x3B, 0x3B, 0x11,
          0x20, (0x82 - max 16 (min t 30)).toNat]
      | .COOL t .DEFAULT => [0x33, 0x28, 0x88, (max 16 (min t 30)).toNat, 0x3B, 0x3B, 0x3B,
          0x11, 0x20, (0x3A - max 16 (min t 30)).toNat] := by
  have hOn : equalsIgnoreCase "ON" "ON" = true := by decide
  cases i with
  | OFF => exact prepareVoltasSignal_not_on "OFF" "" 0 "" buf (by decide)
  | DRY =>
    show bytes (prepareVoltasSignal "ON" "DRY" 24 "NONE" buf) = _
    rw [prepareVoltasSignal_on "ON" "DRY" 24 "NONE" buf hOn]
    simp +decide
  | FAN =>
    show bytes (prepareVoltasSignal "ON" "FAN" 24 "NONE" buf) = _
    rw [prepareVoltasSignal_on "ON" "FAN" 24 "NONE" buf hOn]
    simp +decide
  | HEAT t =>
    show bytes (prepareVoltasSignal "ON" "HEAT" t "NONE" buf) = _
    rw [prepareVoltasSignal_on "ON" "HEAT" t "NONE" buf hOn]
    simp +decide
  | COOL t f =>
    cases f <;>
    · show bytes (prepareVoltasSignal "ON" "COOL" t _ buf) = _
      rw [prepareVoltasSignal_on "ON" "COOL" t _ buf hOn]
      simp +decide [FanSpeed.keyword]

/-- The ten bytes the console encoder produces for an intent; they are the bytes
of the network encoder. -/
theorem consoleSignal_bytes (i : Intent) (buf buf2 : Buffer) :
    bytes (i.consoleSignal buf) = bytes (i.serverSignal buf2) := by
  rw [serverSignal_bytes]
  cases i with
  | OFF => exact generate_ac_command_zero 0 0 0 buf
  | DRY =>
    show bytes (generate_ac_command 1 2 24 0 buf) = _
    rw [generate_ac_command_on 1 2 24 0 buf (by decide)]
    simp +decide
  | FAN =>
    show bytes (generate_ac_command 1 4 24 0 buf) = _
    rw [generate_ac_command_on 1 4 24 0 buf (by decide)]
    simp +decide
  | HEAT t =>
    show bytes (generate_ac_command 1 3 t 0 buf) = _
    rw [generate_ac_command_on 1 3 t 0 buf (by decide)]
    simp +decide
  | COOL t f =>
    cases f <;>
    · show bytes (generate_ac_command 1 1 t _ buf) = _
      rw [generate_ac_command_on 1 1 t _ buf (by decide)]
      simp +decide [FanSpeed.choice]

/-- Bytes 1, 2 and 3 of the network encoder already tell two intents in range
apart. -/
theorem serverSignal_key_injective (i j : Intent) (buf buf2 : Buffer)
    (hi : i.inRange) (hj : j.inRange)
    (h1 : i.serverSignal buf 1 = j.serverSignal buf2 1)
    (h2 : i.serverSignal buf 2 = j.serverSignal buf2 2)
    (h3 : i.serverSignal buf 3 = j.serverSignal buf2 3) : i = j := by
  have bi := serverSignal_bytes i buf
  have bj := serverSignal_bytes j buf2
  rcases i with _ | _ | _ | ti | ⟨ti, _ | _ | _ | _ | _⟩ <;>
  rcases j with _ | _ | _ | tj | ⟨tj, _ | _ | _ | _ | _⟩ <;>
  · have ci := cells_of_bytes _ _ _ _ _ _ _ _ _ _ _ bi
    have cj := cells_of_bytes _ _ _ _ _ _ _ _ _ _ _ bj
    have e1 := ci.2.1.symm.trans (h1.trans cj.2.1)
    have e2 := ci.2.2.1.symm.trans (h2.trans cj.2.2.1)
    have e3 := ci.2.2.2.1.symm.trans (h3.trans cj.2.2.2.1)
    first
      | rfl
      | omega
      | (have hi2 : 16 ≤ ti ∧ ti ≤ 30 := hi
         have hj2 : 16 ≤ tj ∧ tj ≤ 30 := hj
         have ht : ti = tj := by omega
         rw [ht])

/-- C20: the encoding is injective on normalized intents. For the intents OFF,
DRY, FAN, HEAT at t and COOL at t with fan LOW, MEDIUM, HIGH, AUTO or DEFAULT,
t in 16..30, two intents with the same ten bytes are the same intent, in either
encoder; distinct intents already differ in bytes 1, 2 and 3; and no intent
other than OFF produces the OFF sequence. -/
theorem encoding_injective (i j : Intent) (buf buf2 : Buffer)
    (hi : i.inRange) (hj : j.inRange) :
    (bytes (i.serverSignal buf) = bytes (j.serverSignal buf2) → i = j) ∧
    (bytes (i.consoleSignal buf) = bytes (j.consoleSignal buf2) → i = j) ∧
    (i ≠ j →
      (i.serverSignal buf 1, i.serverSignal buf 2, i.serverSignal buf 3)
        ≠ (j.serverSignal buf2 1, j.serverSignal buf2 2, j.serverSignal buf2 3)) ∧
    (i ≠ Intent.OFF →
      bytes (i.serverSignal buf) ≠ [0x33, 0x28, 0x08, 0x18, 0x3B, 0x3B, 0x3B, 0x11, 0x20, 0xA2] ∧
      bytes (i.consoleSignal buf)
        ≠ [0x33, 0x28, 0x08, 0x18, 0x3B, 0x3B, 0x3B, 0x11, 0x20, 0xA2]) := by
  have hServer : ∀ (a b : Intent) (b1 b2 : Buffer), a.inRange → b.inRange →
      bytes (a.serverSignal b1) = bytes (b.serverSignal b2) → a = b := by
    intro a b b1 b2 ha hb h
    simp only [bytes, List.cons.injEq, and_true] at h
    exact serverSignal_key_injective a b b1 b2 ha hb h.2.1 h.2.2.1 h.2.2.2.1
  have hOffBytes := serverSignal_bytes Intent.OFF buf
  refine ⟨hServer i j buf buf2 hi hj, ?_, ?_, ?_⟩
  · intro h
    rw [consoleSignal_bytes i buf buf, consoleSignal_bytes j buf2 buf2] at h
    exact hServer i j buf buf2 hi hj h
  · intro hne hkey
    simp only [Prod.mk.injEq] at hkey
    exact hne (serverSignal_key_injective i j buf buf2 hi hj hkey.1 hkey.2.1 hkey.2.2)
  · intro hne
    constructor
    · intro h
      exact hne (hServer i Intent.OFF buf buf hi trivial (h.trans hOffBytes.symm))
    · intro h
      rw [consoleSignal_bytes i buf buf] at h
      exact hne (hServer i Intent.OFF buf buf hi trivial (h.trans hOffBytes.symm))

theorem encoding_injective_witness :
    (Intent.COOL 24 FanSpeed.HIGH).inRange ∧ (Intent.COOL 24 FanSpeed.DEFAULT).inRange ∧
    (Intent.COOL 24 FanSpeed.HIGH ≠ Intent.COOL 24 FanSpeed.DEFAULT →
      ((Intent.COOL 24 FanSpeed.HIGH).serverSignal (fun _ => 0) 1,
       (Intent.COOL 24 FanSpeed.HIGH).serverSignal (fun _ => 0) 2,
       (Intent.COOL 24 FanSpeed.HIGH).serverSignal (fun _ => 0) 3)
        ≠ ((Intent.COOL 24 FanSpeed.DEFAULT).serverSignal (fun _ => 0) 1,
           (Intent.COOL 24 FanSpeed.DEFAULT).serverSignal (fun _ => 0) 2,
           (Intent.COOL 24 FanSpeed.DEFAULT).serverSignal (fun _ => 0) 3)) :=
  ⟨by decide, by decide,
   (encoding_injective (Intent.COOL 24 FanSpeed.HIGH) (Intent.COOL 24 FanSpeed.DEFAULT)
      (fun _ => 0) (fun _ => 0) (by decide) (by decide)).2.2.1⟩

end SmartAC
